import Mathlib

/-!
# nodesetLoader: the namespace list and the open62541 import backend

A shallow embedding of `src/NamespaceList.c` and of
`backends/open62541/src/import.c`.

* C pointers to linked lists become Lean lists, a pointer that may be `NULL`
  becomes an `Option`.
* Calls into the server, the data type importer and the logger are recorded, in
  program order, in a history of `ServerCall`s; what the program reads back from
  the server (browse results, registered data types, decoded values) is given by
  functions of that history, collected in `Env`.
* A computation that has no defined result is `Except.error`: either a loop was
  cut off by its fuel (`Stuck.outOfFuel`) or the C code leaves the language's
  defined behaviour (`Stuck.undefinedBehaviour`).
-/

set_option autoImplicit false

namespace NodesetLoader

/-! ## Outcomes and libc helpers -/

/-- Why a run has no result. -/
inductive Stuck where
  | outOfFuel
  | undefinedBehaviour
  deriving DecidableEq, Repr

/-- Width of `size_t` in bits. -/
def SIZE_WIDTH : Nat := 64

/-- The conversion `(size_t)i` of a C `int`. -/
def toSizeT (i : Int) : Nat := (i % (2 : Int) ^ SIZE_WIDTH).toNat

/-- The conversion `(UA_UInt32)i`. -/
def toUInt32 (i : Int) : Nat := (i % (2 : Int) ^ 32).toNat

/-- The conversion `(UA_Byte)i`. -/
def toByte (i : Int) : Nat := (i % (2 : Int) ^ 8).toNat

/-- The libc predicate `isspace` in the C locale. -/
def isspace (c : Char) : Bool :=
  c.toNat = 32 || (9 ≤ c.toNat && c.toNat ≤ 13)

/-- Value of the leading run of decimal digits, continuing from `acc`. -/
def digitsValue : List Char → Nat → Nat
  | [], acc => acc
  | c :: cs, acc =>
    if 48 ≤ c.toNat ∧ c.toNat ≤ 57 then digitsValue cs (acc * 10 + (c.toNat - 48)) else acc

/-- The decimal value `strtol` reads from a character list: leading white space, an
optional sign, then digits. The value is not yet reduced to a machine range. -/
def atoiChars : List Char → Int
  | [] => 0
  | c :: cs =>
    if isspace c then atoiChars cs
    else if c.toNat = 45 then -((digitsValue cs 0 : Nat) : Int)
    else if c.toNat = 43 then ((digitsValue cs 0 : Nat) : Int)
    else ((digitsValue (c :: cs) 0 : Nat) : Int)

/-- The largest value of a C `long` (64 bits). -/
def LONG_MAX : Int := 2 ^ 63 - 1

/-- The smallest value of a C `long` (64 bits). -/
def LONG_MIN : Int := -(2 : Int) ^ 63

/-- The libc function `strtol(s, NULL, 10)`: the decimal value, or `LONG_MAX` or
`LONG_MIN` when it lies outside the range of `long`. -/
def strtol (s : List Char) : Int :=
  if atoiChars s > LONG_MAX then LONG_MAX
  else if atoiChars s < LONG_MIN then LONG_MIN
  else atoiChars s

/-- The conversion `(int)i` to a 32 bit `int`. -/
def toInt32 (i : Int) : Int := (i + (2 : Int) ^ 31) % (2 : Int) ^ 32 - (2 : Int) ^ 31

/-- The libc function `atoi`, an `int`. The C standard leaves the result undefined
when the value is not in the range of `int`; this is the result glibc gives,
`(int) strtol(s, NULL, 10)`. -/
def atoi (s : String) : Int := toInt32 (strtol s.toList)

/-! ## NamespaceList.c -/

/-- Modelled from the spec: the declaration of `Namespace` is in a header that is
not among the sources; an entry is a (uri, globalIndex) pair, the index being the
`int` the callback returned. -/
structure Namespace where
  idx : Int
  name : String
  deriving DecidableEq, Repr, Inhabited

/-- The `struct NamespaceList`. The callback reads and updates the backend state
`σ` behind `userContext`. A `data` block of `n` entries is a list of length `n`;
`data = NULL` is the empty list. -/
structure NamespaceList (σ : Type) where
  size : Nat
  data : List Namespace
  cb : σ → String → Int × σ

/-- The libc function `realloc` on a block of entries: the first `n` entries are kept,
the new ones are not initialised (here: `default`). -/
def reallocEntries (data : List Namespace) (n : Nat) : List Namespace :=
  data.take n ++ List.replicate (n - data.length) default

/-- The function `NamespaceList_new`. The flags `allocList` and `allocData` say whether
the first and the second `calloc` succeed. -/
def NamespaceList_new {σ : Type} (allocList allocData : Bool)
    (cb : σ → String → Int × σ) : Option (NamespaceList σ) :=
  if !allocList then none
  else
    let list : NamespaceList σ := { size := 1, data := [], cb := cb }
    if !allocData then none
    else
      let data := (List.replicate 1 (default : Namespace)).set 0
        { name := "http://opcfoundation.org/UA/", idx := 0 }
      some { list with data := data }

/-- The function `NamespaceList_newNamespace`. The flag `alloc` says whether `realloc`
succeeds. The result is the list afterwards, the backend state afterwards, and
the returned entry (`none` for `NULL`). -/
def NamespaceList_newNamespace {σ : Type} (alloc : Bool) (list : NamespaceList σ)
    (userContext : σ) (uri : String) : NamespaceList σ × σ × Option Namespace :=
  -- ask backend to create/get overall namespaceIndex
  let (globalIdx, userContext) := list.cb userContext uri
  let size := list.size + 1
  if !alloc then
    ({ list with size := size, data := [] }, userContext, none)
  else
    let data := reallocEntries list.data size
    let data := data.set (size - 1) { name := uri, idx := globalIdx }
    ({ list with size := size, data := data }, userContext, data[size - 1]?)

/-- The function `NamespaceList_getNamespace`. `Except.ok none` is the `NULL` result;
an address outside the `data` block is undefined behaviour. -/
def NamespaceList_getNamespace {σ : Type} (list : NamespaceList σ)
    (relativeIndex : Int) : Except Stuck (Option Namespace) :=
  if toSizeT relativeIndex ≥ list.size then .ok none
  else if relativeIndex < 0 then .error .undefinedBehaviour
  else
    match list.data[relativeIndex.toNat]? with
    | some ns => .ok (some ns)
    | none => .error .undefinedBehaviour

/-- The lists that `NamespaceList_new` and then any number of
`NamespaceList_newNamespace` calls produce, every allocation succeeding. -/
inductive NamespaceList.Reachable {σ : Type} : NamespaceList σ → Prop where
  | new (cb : σ → String → Int × σ) (list : NamespaceList σ)
      (h : NamespaceList_new true true cb = some list) : NamespaceList.Reachable list
  | newNamespace (list : NamespaceList σ) (userContext : σ) (uri : String)
      (h : NamespaceList.Reachable list) :
      NamespaceList.Reachable (NamespaceList_newNamespace true list userContext uri).1

/-- The list after registering `uris` one after the other, and the backend state
afterwards, every allocation succeeding. -/
def registerAll {σ : Type} : NamespaceList σ → σ → List String → NamespaceList σ × σ
  | list, ctx, [] => (list, ctx)
  | list, ctx, uri :: uris =>
    let r := NamespaceList_newNamespace true list ctx uri
    registerAll r.1 r.2.1 uris

/-! ## Data model of the nodeset (NodesetLoader.h) -/

/-- Modelled from the spec: the eight node classes (the `enum` is declared in a
header that is not among the sources). -/
inductive TNodeClass where
  | NODECLASS_OBJECT
  | NODECLASS_VARIABLE
  | NODECLASS_METHOD
  | NODECLASS_OBJECTTYPE
  | NODECLASS_VARIABLETYPE
  | NODECLASS_REFERENCETYPE
  | NODECLASS_DATATYPE
  | NODECLASS_VIEW
  deriving DecidableEq, Repr

open TNodeClass

/-- Modelled from the spec: the number of node classes. -/
def NODECLASS_COUNT : Nat := 8

/-- Identifier of a node in the nodeset: namespace index and identifier text
(`NULL` when the attribute is absent). -/
structure TNodeId where
  nsIdx : Int
  id : Option String
  deriving DecidableEq, Repr

/-- Modelled from the spec: `TNodeId_cmp` is declared in a header that is not among
the sources; it orders identifiers by namespace index and then by text, and is
`0` exactly for equal (namespace index, identifier) pairs. -/
def TNodeId_cmp (a b : TNodeId) : Int :=
  if a.nsIdx = b.nsIdx then
    (if a.id = b.id then 0 else if a.id.getD "" < b.id.getD "" then -1 else 1)
  else if a.nsIdx < b.nsIdx then -1 else 1

/-- A `Reference`; the `next` pointer is the tail of the list that holds it. -/
structure Reference where
  isForward : Bool
  refType : TNodeId
  target : TNodeId
  deriving DecidableEq, Repr

/-- A `BiDirectionalReference` (has-encoding triple). -/
structure BiDirectionalReference where
  source : TNodeId
  target : TNodeId
  refType : TNodeId
  deriving DecidableEq, Repr

/-- A locale and text pair of the nodeset. -/
structure TLocalizedText where
  locale : String
  text : String
  deriving DecidableEq, Repr

/-- The browse name of a node. -/
structure TBrowseName where
  nsIdx : Nat
  name : String
  deriving DecidableEq, Repr

/-- A literal `Value`: `membersSize` is `data->val.complexData.membersSize`, read
only when `isArray` holds; `text` stands for the remaining payload. -/
structure Value where
  isArray : Bool
  membersSize : Nat
  text : String
  deriving DecidableEq, Repr

/-- The fields of a `TObjectNode` beyond the common ones. -/
structure TObjectNode where
  parentNodeId : TNodeId
  eventNotifier : String
  refToTypeDef : Option Reference
  deriving DecidableEq, Repr

/-- The fields of a `TVariableNode` beyond the common ones. -/
structure TVariableNode where
  parentNodeId : TNodeId
  datatype : TNodeId
  arrayDimensions : String
  valueRank : String
  accessLevel : String
  userAccessLevel : String
  historizing : String
  value : Option Value
  refToTypeDef : Option Reference
  deriving DecidableEq, Repr

/-- The fields of a `TMethodNode` beyond the common ones. -/
structure TMethodNode where
  executable : String
  userExecutable : String
  deriving DecidableEq, Repr

/-- The fields of a `TObjectTypeNode` beyond the common ones. -/
structure TObjectTypeNode where
  isAbstract : String
  deriving DecidableEq, Repr

/-- The fields of a `TVariableTypeNode` beyond the common ones. -/
structure TVariableTypeNode where
  valueRank : String
  arrayDimensions : String
  isAbstract : String
  deriving DecidableEq, Repr

/-- The fields of a `TReferenceTypeNode` beyond the common ones. -/
structure TReferenceTypeNode where
  symmetric : String
  inverseName : TLocalizedText
  deriving DecidableEq, Repr

/-- The fields of a `TDataTypeNode` beyond the common ones. -/
structure TDataTypeNode where
  isAbstract : String
  deriving DecidableEq, Repr

/-- The fields of a `TViewNode` beyond the common ones. -/
structure TViewNode where
  containsNoLoops : String
  eventNotifier : String
  deriving DecidableEq, Repr

/-- The class-specific record a `TNode *` is cast to; the variant is the node's
`nodeClass` tag. -/
inductive TNodeKind where
  | objectNode (n : TObjectNode)
  | variableNode (n : TVariableNode)
  | methodNode (n : TMethodNode)
  | objectTypeNode (n : TObjectTypeNode)
  | variableTypeNode (n : TVariableTypeNode)
  | referenceTypeNode (n : TReferenceTypeNode)
  | dataTypeNode (n : TDataTypeNode)
  | viewNode (n : TViewNode)
  deriving DecidableEq, Repr

/-- A `TNode`: the attributes common to all classes and the class-specific record. -/
structure TNode where
  id : TNodeId
  browseName : TBrowseName
  displayName : TLocalizedText
  description : TLocalizedText
  hierachicalRefs : List Reference
  nonHierachicalRefs : List Reference
  extension : Option String
  kind : TNodeKind
  deriving DecidableEq, Repr

/-- The field `node->nodeClass`. -/
def TNode.nodeClass (node : TNode) : TNodeClass :=
  match node.kind with
  | .objectNode _ => NODECLASS_OBJECT
  | .variableNode _ => NODECLASS_VARIABLE
  | .methodNode _ => NODECLASS_METHOD
  | .objectTypeNode _ => NODECLASS_OBJECTTYPE
  | .variableTypeNode _ => NODECLASS_VARIABLETYPE
  | .referenceTypeNode _ => NODECLASS_REFERENCETYPE
  | .dataTypeNode _ => NODECLASS_DATATYPE
  | .viewNode _ => NODECLASS_VIEW

/-- The state of a `NodesetLoader` that the backend reads: one node container per
class and the has-encoding triples. -/
structure Loader where
  nodes : TNodeClass → List TNode
  hasEncodingRefs : List BiDirectionalReference

/-! ## open62541 types -/

/-- The identifier of a `UA_NodeId`, tagged with its `identifierType`. -/
inductive UA_Identifier where
  | numeric (n : Nat)
  | string (s : String)
  | guid (g : Nat)
  | byteString (b : String)
  deriving DecidableEq, Repr

/-- The test `identifierType == UA_NODEIDTYPE_NUMERIC`. -/
def UA_Identifier.isNumeric : UA_Identifier → Bool
  | .numeric _ => true
  | _ => false

/-- The union member `identifier.numeric`, read only for a numeric identifier. -/
def UA_Identifier.numericValue : UA_Identifier → Nat
  | .numeric n => n
  | _ => 0

/-- A `UA_NodeId`. -/
structure UA_NodeId where
  namespaceIndex : Nat
  identifier : UA_Identifier
  deriving DecidableEq, Repr

/-- The constructor `UA_NODEID_NUMERIC`. -/
def UA_NODEID_NUMERIC (nsIndex : Nat) (identifier : Nat) : UA_NodeId :=
  { namespaceIndex := nsIndex, identifier := .numeric identifier }

/-- The null identifier `UA_NODEID_NULL`. -/
def UA_NODEID_NULL : UA_NodeId := UA_NODEID_NUMERIC 0 0

/-- The function `UA_NodeId_equal`. -/
def UA_NodeId_equal (a b : UA_NodeId) : Bool := decide (a = b)

/-- The open62541 constant `UA_NS0ID_OPTIONSET`. -/
def UA_NS0ID_OPTIONSET : Nat := 12755

/-- The open62541 status code `UA_STATUSCODE_GOOD`. -/
def UA_STATUSCODE_GOOD : Nat := 0

/-- A type descriptor `UA_DataType`, reduced to what identifies it. -/
structure UA_DataType where
  typeId : UA_NodeId
  typeName : String
  deriving DecidableEq, Repr

/-- A `UA_LocalizedText`. -/
structure UA_LocalizedText where
  locale : String
  text : String
  deriving DecidableEq, Repr

/-- The constructor `UA_LOCALIZEDTEXT`. -/
def UA_LOCALIZEDTEXT (locale text : String) : UA_LocalizedText :=
  { locale := locale, text := text }

/-- A `UA_QualifiedName`. -/
structure UA_QualifiedName where
  namespaceIndex : Nat
  name : String
  deriving DecidableEq, Repr

/-- The constructor `UA_QUALIFIEDNAME`. -/
def UA_QUALIFIEDNAME (nsIndex : Nat) (name : String) : UA_QualifiedName :=
  { namespaceIndex := nsIndex, name := name }

/-- A decoded value buffer `RawData`. -/
structure RawData where
  mem : List Nat
  deriving DecidableEq, Repr

/-- A `UA_Variant`: `data = none` is the empty variant; a scalar has
`arrayLength = 0` and data. -/
structure UA_Variant where
  type : Option UA_DataType
  arrayLength : Nat
  data : Option (List Nat)
  deriving DecidableEq, Repr

/-- The empty variant (`UA_Variant_init`). -/
def UA_Variant.empty : UA_Variant := { type := none, arrayLength := 0, data := none }

/-- The function `UA_Variant_setScalar`. -/
def UA_Variant_setScalar (p : List Nat) (type : Option UA_DataType) : UA_Variant :=
  { type := type, arrayLength := 0, data := some p }

/-- The function `UA_Variant_setArray`. -/
def UA_Variant_setArray (array : List Nat) (arraySize : Nat)
    (type : Option UA_DataType) : UA_Variant :=
  { type := type, arrayLength := arraySize, data := some array }

/-- The function `UA_Variant_isScalar`. -/
def UA_Variant_isScalar (v : UA_Variant) : Bool :=
  v.arrayLength = 0 && v.data.isSome

/-- The fields of `UA_VariableAttributes` that the import sets. -/
structure UA_VariableAttributes where
  displayName : UA_LocalizedText
  description : UA_LocalizedText
  dataType : UA_NodeId
  valueRank : Int
  arrayDimensionsSize : Nat
  arrayDimensions : Option (List Nat)
  accessLevel : Nat
  userAccessLevel : Nat
  historizing : Bool
  value : UA_Variant
  deriving DecidableEq, Repr

/-- The attribute record handed to the server, per node class. -/
inductive UA_Attributes where
  | object (displayName description : UA_LocalizedText) (eventNotifier : Nat)
  | view (displayName description : UA_LocalizedText) (eventNotifier : Nat)
      (containsNoLoops : Bool)
  | method (displayName description : UA_LocalizedText) (executable userExecutable : Bool)
  | variable (attr : UA_VariableAttributes)
  | objectType (displayName description : UA_LocalizedText) (isAbstract : Bool)
  | referenceType (displayName description inverseName : UA_LocalizedText) (symmetric : Bool)
  | variableType (displayName description : UA_LocalizedText) (valueRank : Int)
      (isAbstract : Bool) (arrayDimensionsSize : Nat) (arrayDimensions : Option (List Nat))
  | dataType (displayName description : UA_LocalizedText) (isAbstract : Bool)
  deriving DecidableEq, Repr

/-- A `UA_BrowseDescription`, reduced to the fields the import sets. -/
structure UA_BrowseDescription where
  nodeId : UA_NodeId
  inverse : Bool
  nodeClassMask : Option TNodeClass
  deriving DecidableEq, Repr

/-- A `UA_BrowseResult`: `references` lists the `nodeId.nodeId` of each reference
description, `referencesSize` is its length. -/
structure UA_BrowseResult where
  statusCode : Nat
  references : List UA_NodeId
  deriving DecidableEq, Repr

/-- The server function that adds a node. -/
inductive AddNodeApi where
  | UA_Server_addNode_begin
  | UA_Server_addViewNode
  | UA_Server_addMethodNode
  | UA_Server_addObjectTypeNode
  | UA_Server_addReferenceTypeNode
  | UA_Server_addDataTypeNode
  deriving DecidableEq, Repr

/-- Log levels of the `NodesetLoader_Logger`. -/
inductive LogLevel where
  | NODESETLOADER_LOGLEVEL_DEBUG
  | NODESETLOADER_LOGLEVEL_WARNING
  | NODESETLOADER_LOGLEVEL_ERROR
  deriving DecidableEq, Repr

/-- An argument of a log message; `className c` is `NODECLASS_NAME[c]`. -/
inductive LogArg where
  | str (s : String)
  | size (n : Nat)
  | className (c : TNodeClass)
  deriving DecidableEq, Repr

/-- One call that the import makes into the server, the data type importer, the
nodeset loader or the logger. `typeDefinition` is `none` for the functions that
take no such argument. -/
inductive ServerCall where
  | addNode (api : AddNodeApi) (nodeClass : TNodeClass)
      (requestedNewNodeId parentNodeId referenceTypeId : UA_NodeId)
      (browseName : UA_QualifiedName) (typeDefinition : Option UA_NodeId)
      (attr : UA_Attributes) (nodeContext : Option String)
  | addReference (sourceId refTypeId targetId : UA_NodeId) (isForward : Bool)
  | DataTypeImporter_new
  | DataTypeImporter_addCustomDataType (node : TNode) (parent : UA_NodeId)
  | DataTypeImporter_initMembers
  | DataTypeImporter_delete
  | NodesetLoader_importFile (path : String)
  | NodesetLoader_sort
  | log (level : LogLevel) (message : String) (args : List LogArg)
  deriving DecidableEq, Repr

/-- The state of the server (and of the loader's collaborators): the calls made
so far, oldest first. -/
abbrev History := List ServerCall

/-- What the import reads from code outside `import.c`. Functions that depend on
the state of the server take the history. -/
structure Env where
  getNodeIdFromChars : TNodeId → UA_NodeId
  isTrue : String → Bool
  UA_Server_browse : History → Nat → UA_BrowseDescription → UA_BrowseResult
  UA_findDataType : UA_NodeId → Option UA_DataType
  NodesetLoader_getCustomDataType : History → UA_NodeId → Option UA_DataType
  customDataTypes : History → List UA_DataType
  Value_getData : Value → Option UA_DataType → List UA_DataType → Option RawData
  NodesetLoader_importFile : History → String → Bool × Loader
  NodesetLoader_sort : Loader → Bool × Loader

/-! ## import.c -/

/-- The function `getParentDataType`: the one inverse reference to a DataType node,
or the null identifier. -/
def getParentDataType (env : Env) (server : History) (id : UA_NodeId) : UA_NodeId :=
  let bd : UA_BrowseDescription :=
    { nodeId := id, inverse := true, nodeClassMask := some NODECLASS_DATATYPE }
  let br := env.UA_Server_browse server 10 bd
  if br.statusCode ≠ UA_STATUSCODE_GOOD ∨ br.references.length ≠ 1 then UA_NODEID_NULL
  else
    match br.references with
    | parentId :: _ => parentId
    | [] => UA_NODEID_NULL

/-- The function `isKnownParent`. -/
def isKnownParent (typeId : UA_NodeId) : Bool :=
  if typeId.namespaceIndex = 0 &&
      typeId.identifier.isNumeric &&
      decide (typeId.identifier.numericValue ≤ 30) then true
  else
    let optionSetId := UA_NODEID_NUMERIC 0 UA_NS0ID_OPTIONSET
    if UA_NodeId_equal typeId optionSetId then true
    else false

/-- The function `getParentType`. `fuel` bounds the number of iterations of the loop. -/
def getParentType (env : Env) (server : History) : Nat → UA_NodeId → Except Stuck UA_NodeId
  | fuel, current =>
    if isKnownParent current then .ok current
    else
      match fuel with
      | 0 => .error .outOfFuel
      | fuel + 1 => getParentType env server fuel (getParentDataType env server current)

/-- The function `getReferenceTypeId`. -/
def getReferenceTypeId (env : Env) (ref : Option Reference) : UA_NodeId :=
  match ref with
  | none => UA_NODEID_NULL
  | some ref => env.getNodeIdFromChars ref.refType

/-- The function `getReferenceTarget`. -/
def getReferenceTarget (env : Env) (ref : Option Reference) : UA_NodeId :=
  match ref with
  | none => UA_NODEID_NULL
  | some ref => env.getNodeIdFromChars ref.target

/-- The loop of `getHierachicalInverseReference` over the list of references. -/
def getHierachicalInverseReference.loop : List Reference → Option Reference
  | [] => none
  | hierachicalRef :: next =>
    if !hierachicalRef.isForward then some hierachicalRef
    else getHierachicalInverseReference.loop next

/-- The function `getHierachicalInverseReference`. -/
def getHierachicalInverseReference (node : TNode) : Option Reference :=
  getHierachicalInverseReference.loop node.hierachicalRefs

/-- The function `getParentId`: the returned parent and the value stored in
`*parentRefId`. -/
def getParentId (env : Env) (node : TNode) : UA_NodeId × UA_NodeId :=
  let parentId : UA_NodeId :=
    match node.kind with
    | .objectNode o => env.getNodeIdFromChars o.parentNodeId
    | .variableNode v => env.getNodeIdFromChars v.parentNodeId
    | _ => UA_NODEID_NULL
  let ref := getHierachicalInverseReference node
  let parentRefId := getReferenceTypeId env ref
  let parentId :=
    if UA_NodeId_equal parentId UA_NODEID_NULL then getReferenceTarget env ref
    else parentId
  (parentId, parentRefId)

/-- The dereference `node->refToTypeDef->target`; undefined for a null pointer. -/
def typeDefTarget (env : Env) (refToTypeDef : Option Reference) : Except Stuck UA_NodeId :=
  match refToTypeDef with
  | none => .error .undefinedBehaviour
  | some ref => .ok (env.getNodeIdFromChars ref.target)

/-- The function `handleObjectNode`. -/
def handleObjectNode (env : Env) (node : TObjectNode) (extension : Option String)
    (id parentId parentReferenceId : UA_NodeId) (lt : UA_LocalizedText)
    (qn : UA_QualifiedName) (description : UA_LocalizedText) (server : History) :
    Except Stuck History :=
  let oAttr := UA_Attributes.object lt description (toByte (atoi node.eventNotifier))
  match typeDefTarget env node.refToTypeDef with
  | .error e => .error e
  | .ok typeDefId =>
    -- addNode_begin is used, otherwise all mandatory childs from type are
    -- instantiated
    .ok (server ++ [.addNode .UA_Server_addNode_begin NODECLASS_OBJECT id parentId
      parentReferenceId qn (some typeDefId) oAttr extension])

/-- The function `handleViewNode`. -/
def handleViewNode (env : Env) (node : TViewNode) (extension : Option String)
    (id parentId parentReferenceId : UA_NodeId) (lt : UA_LocalizedText)
    (qn : UA_QualifiedName) (description : UA_LocalizedText) (server : History) :
    Except Stuck History :=
  let attr := UA_Attributes.view lt description (toByte (atoi node.eventNotifier))
    (env.isTrue node.containsNoLoops)
  .ok (server ++ [.addNode .UA_Server_addViewNode NODECLASS_VIEW id parentId
    parentReferenceId qn none attr extension])

/-- The function `handleMethodNode`. -/
def handleMethodNode (env : Env) (node : TMethodNode) (extension : Option String)
    (id parentId parentReferenceId : UA_NodeId) (lt : UA_LocalizedText)
    (qn : UA_QualifiedName) (description : UA_LocalizedText) (server : History) :
    Except Stuck History :=
  let attr := UA_Attributes.method lt description (env.isTrue node.executable)
    (env.isTrue node.userExecutable)
  .ok (server ++ [.addNode .UA_Server_addMethodNode NODECLASS_METHOD id parentId
    parentReferenceId qn none attr extension])

/-- The libc function `strchr` on a character list: the suffix that starts at the
first occurrence of `c`. -/
def strchr : List Char → Char → Option (List Char)
  | [], _ => none
  | x :: xs, c => if x = c then some (x :: xs) else strchr xs c

/-- The function `getArrayDimensions`: the returned size and the value of `*dims`
afterwards, `dims` being its value before. In the loop `*dims[arrSize - 1]` is
`*(dims[arrSize - 1])`: with `arrSize - 1 ≥ 1` it reads a pointer from behind the
one pointer `dims` points to, which is undefined. -/
def getArrayDimensions (s : String) (dims : Option (List Nat)) :
    Except Stuck (Nat × Option (List Nat)) :=
  let length := s.length
  let arrSize := 0
  if 0 = length then .ok (0, dims)
  else
    -- add the first one
    let val := atoi s
    let arrSize := arrSize + 1
    let dims := some [toUInt32 val]
    match strchr s.toList (Char.ofNat 59) with
    | none => .ok (arrSize, dims)
    | some _ => .error .undefinedBehaviour

/-- Lines 207 to 235 of `handleVariableNode`: the attributes, with the array
dimensions, before the value is decoded. -/
def handleVariableNode.attributes (env : Env) (node : TVariableNode)
    (lt description : UA_LocalizedText) : Except Stuck UA_VariableAttributes :=
  match getArrayDimensions node.arrayDimensions none with
  | .error e => .error e
  | .ok (arrayDimensionsSize, arrDims) =>
    let attr : UA_VariableAttributes :=
      { displayName := lt
        dataType := env.getNodeIdFromChars node.datatype
        valueRank := atoi node.valueRank
        arrayDimensionsSize := arrayDimensionsSize
        arrayDimensions := arrDims
        accessLevel := toByte (atoi node.accessLevel)
        userAccessLevel := toByte (atoi node.userAccessLevel)
        description := description
        historizing := env.isTrue node.historizing
        value := UA_Variant.empty }
    -- this case is only needed for the euromap83 comparison, think the nodeset
    -- is not valid
    let attr :=
      if attr.arrayDimensions = none ∧ attr.valueRank = 1 then
        { attr with arrayDimensionsSize := 1, arrayDimensions := some [0] }
      else attr
    let attr :=
      match node.value with
      | some value =>
        if attr.arrayDimensionsSize = 0 ∧ value.isArray = true then
          { attr with
            arrayDimensions := some [value.membersSize % 2 ^ 32]
            arrayDimensionsSize := 1 }
        else attr
      | none => attr
    .ok attr

/-- Lines 239 to 250 of `handleVariableNode`: the type descriptor used to decode
the value. -/
def handleVariableNode.dataType (env : Env) (fuel : Nat) (server : History)
    (dataTypeId : UA_NodeId) : Except Stuck (Option UA_DataType) :=
  match env.UA_findDataType dataTypeId with
  | some dataType => .ok (some dataType)
  | none =>
    -- try it with custom types
    match env.NodesetLoader_getCustomDataType server dataTypeId with
    | some dataType => .ok (some dataType)
    | none =>
      -- try it with parent
      match getParentType env server fuel dataTypeId with
      | .error e => .error e
      | .ok parent => .ok (env.UA_findDataType parent)

/-- Lines 236 to 270 of `handleVariableNode`: the attributes after the value is
decoded. -/
def handleVariableNode.value (env : Env) (fuel : Nat) (node : TVariableNode)
    (server : History) (attr : UA_VariableAttributes) : Except Stuck UA_VariableAttributes :=
  match node.value with
  | none => .ok attr
  | some value =>
    match handleVariableNode.dataType env fuel server attr.dataType with
    | .error e => .error e
    | .ok dataType =>
      let types := env.customDataTypes server
      let data := env.Value_getData value dataType types
      match data with
      | some data =>
        if value.isArray then
          .ok { attr with value := UA_Variant_setArray data.mem value.membersSize dataType }
        else
          .ok { attr with value := UA_Variant_setScalar data.mem dataType }
      | none => .ok attr

/-- The function `handleVariableNode`. -/
def handleVariableNode (env : Env) (fuel : Nat) (node : TVariableNode)
    (extension : Option String) (id parentId parentReferenceId : UA_NodeId)
    (lt : UA_LocalizedText) (qn : UA_QualifiedName) (description : UA_LocalizedText)
    (server : History) : Except Stuck History :=
  match handleVariableNode.attributes env node lt description with
  | .error e => .error e
  | .ok attr =>
    match handleVariableNode.value env fuel node server attr with
    | .error e => .error e
    | .ok attr =>
      match typeDefTarget env node.refToTypeDef with
      | .error e => .error e
      | .ok typeDefId =>
        .ok (server ++ [.addNode .UA_Server_addNode_begin NODECLASS_VARIABLE id parentId
          parentReferenceId qn (some typeDefId) (.variable attr) extension])

/-- The function `handleObjectTypeNode`. -/
def handleObjectTypeNode (env : Env) (node : TObjectTypeNode) (extension : Option String)
    (id parentId parentReferenceId : UA_NodeId) (lt : UA_LocalizedText)
    (qn : UA_QualifiedName) (description : UA_LocalizedText) (server : History) :
    Except Stuck History :=
  let oAttr := UA_Attributes.objectType lt description (env.isTrue node.isAbstract)
  .ok (server ++ [.addNode .UA_Server_addObjectTypeNode NODECLASS_OBJECTTYPE id parentId
    parentReferenceId qn none oAttr extension])

/-- The function `handleReferenceTypeNode`. -/
def handleReferenceTypeNode (env : Env) (node : TReferenceTypeNode)
    (extension : Option String) (id parentId parentReferenceId : UA_NodeId)
    (lt : UA_LocalizedText) (qn : UA_QualifiedName) (description : UA_LocalizedText)
    (server : History) : Except Stuck History :=
  let attr := UA_Attributes.referenceType lt description
    (UA_LOCALIZEDTEXT node.inverseName.locale node.inverseName.text)
    (env.isTrue node.symmetric)
  .ok (server ++ [.addNode .UA_Server_addReferenceTypeNode NODECLASS_REFERENCETYPE id
    parentId parentReferenceId qn none attr extension])

/-- The function `handleVariableTypeNode`. The one-element array of the inner block is
taken to be still readable at the call. -/
def handleVariableTypeNode (env : Env) (node : TVariableTypeNode)
    (extension : Option String) (id parentId parentReferenceId : UA_NodeId)
    (lt : UA_LocalizedText) (qn : UA_QualifiedName) (description : UA_LocalizedText)
    (server : History) : Except Stuck History :=
  let valueRank := atoi node.valueRank
  let isAbstract := env.isTrue node.isAbstract
  let dims : Nat × Option (List Nat) :=
    if valueRank ≥ 0 then
      if node.arrayDimensions = "" then (1, some [0]) else (0, none)
    else (0, none)
  let attr := UA_Attributes.variableType lt description valueRank isAbstract dims.1 dims.2
  .ok (server ++ [.addNode .UA_Server_addNode_begin NODECLASS_VARIABLETYPE id parentId
    parentReferenceId qn (some UA_NODEID_NULL) attr extension])

/-- The function `handleDataTypeNode`. -/
def handleDataTypeNode (env : Env) (node : TDataTypeNode) (extension : Option String)
    (id parentId parentReferenceId : UA_NodeId) (lt : UA_LocalizedText)
    (qn : UA_QualifiedName) (description : UA_LocalizedText) (server : History) :
    Except Stuck History :=
  let attr := UA_Attributes.dataType lt description (env.isTrue node.isAbstract)
  .ok (server ++ [.addNode .UA_Server_addDataTypeNode NODECLASS_DATATYPE id parentId
    parentReferenceId qn none attr extension])

/-- The function `addNode`. -/
def addNode (env : Env) (fuel : Nat) (server : History) (node : TNode) :
    Except Stuck History :=
  let id := env.getNodeIdFromChars node.id
  let parentReferenceId := (getParentId env node).2
  let parentId := (getParentId env node).1
  let lt := UA_LOCALIZEDTEXT node.displayName.locale node.displayName.text
  let qn := UA_QUALIFIEDNAME node.browseName.nsIdx node.browseName.name
  let description := UA_LOCALIZEDTEXT node.description.locale node.description.text
  match node.kind with
  | .objectNode n =>
    handleObjectNode env n node.extension id parentId parentReferenceId lt qn description server
  | .methodNode n =>
    handleMethodNode env n node.extension id parentId parentReferenceId lt qn description server
  | .objectTypeNode n =>
    handleObjectTypeNode env n node.extension id parentId parentReferenceId lt qn description
      server
  | .referenceTypeNode n =>
    handleReferenceTypeNode env n node.extension id parentId parentReferenceId lt qn
      description server
  | .variableTypeNode n =>
    handleVariableTypeNode env n node.extension id parentId parentReferenceId lt qn
      description server
  | .variableNode n =>
    handleVariableNode env fuel n node.extension id parentId parentReferenceId lt qn
      description server
  | .dataTypeNode n =>
    handleDataTypeNode env n node.extension id parentId parentReferenceId lt qn description
      server
  | .viewNode n =>
    handleViewNode env n node.extension id parentId parentReferenceId lt qn description server

/-- The `struct DataTypeImportCtx`; the importer works on the server. -/
structure DataTypeImportCtx where
  hasEncodingRef : List BiDirectionalReference
  server : History

/-- The loop of `addDataType` over the has-encoding triples: the node afterwards. -/
def addDataType.loop (node : TNode) : List BiDirectionalReference → TNode
  | [] => node
  | r :: next =>
    if TNodeId_cmp r.source node.id = 0 then
      let ref : Reference :=
        { isForward := false, refType := r.refType, target := r.target }
      let lastRef := node.nonHierachicalRefs
      { node with nonHierachicalRefs := ref :: lastRef }
    else addDataType.loop node next

/-- The function `addDataType`: the context and the node afterwards. -/
def addDataType (env : Env) (fuel : Nat) (ctx : DataTypeImportCtx) (node : TNode) :
    Except Stuck (DataTypeImportCtx × TNode) :=
  -- add only the types
  let node := addDataType.loop node ctx.hasEncodingRef
  match getParentType env ctx.server fuel (env.getNodeIdFromChars node.id) with
  | .error e => .error e
  | .ok parent =>
    .ok ({ ctx with
           server := ctx.server ++ [.DataTypeImporter_addCustomDataType node parent] }, node)

/-- The visit of the nodes of one container, in container order: the nodes and the
context afterwards. -/
def forEachNode.loop {σ : Type} (fn : σ → TNode → Except Stuck (σ × TNode)) :
    List TNode → σ → Except Stuck (List TNode × σ)
  | [], context => .ok ([], context)
  | node :: rest, context =>
    match fn context node with
    | .error e => .error e
    | .ok (context, node) =>
      match forEachNode.loop fn rest context with
      | .error e => .error e
      | .ok (rest, context) => .ok (node :: rest, context)

/-- Modelled from the spec: `NodesetLoader_forEachNode` is defined in a file that is
not among the sources; it produces the nodes of one class in current container
order, hands each to `fn` with the context, and returns their number. -/
def NodesetLoader_forEachNode {σ : Type} (loader : Loader) (nodeClass : TNodeClass)
    (context : σ) (fn : σ → TNode → Except Stuck (σ × TNode)) :
    Except Stuck (Loader × σ × Nat) :=
  match forEachNode.loop fn (loader.nodes nodeClass) context with
  | .error e => .error e
  | .ok (nodes, context) =>
    .ok ({ loader with nodes := Function.update loader.nodes nodeClass nodes }, context,
      nodes.length)

/-- The function `NodesetLoader_getBidirectionalRefs`. -/
def NodesetLoader_getBidirectionalRefs (loader : Loader) : List BiDirectionalReference :=
  loader.hasEncodingRefs

/-- The function `importDataTypes`. -/
def importDataTypes (env : Env) (fuel : Nat) (loader : Loader) (server : History) :
    Except Stuck (Loader × History) :=
  -- add datatypes
  let hasEncodingRef := NodesetLoader_getBidirectionalRefs loader
  let server := server ++ [.DataTypeImporter_new]
  let ctx : DataTypeImportCtx := { hasEncodingRef := hasEncodingRef, server := server }
  match NodesetLoader_forEachNode loader NODECLASS_DATATYPE ctx (addDataType env fuel) with
  | .error e => .error e
  | .ok (loader, ctx, _) =>
    .ok (loader, ctx.server ++ [.DataTypeImporter_initMembers, .DataTypeImporter_delete])

/-- The calls one loop of `addNonHierachicalRefs` makes for the references `refs` of
the node. -/
def addNonHierachicalRefs.loop (env : Env) (node : TNode) : List Reference → History
  | [] => []
  | ref :: next =>
    let src := env.getNodeIdFromChars node.id
    let target := env.getNodeIdFromChars ref.target
    let refType := env.getNodeIdFromChars ref.refType
    .addReference src refType target ref.isForward :: addNonHierachicalRefs.loop env node next

/-- The function `addNonHierachicalRefs`. -/
def addNonHierachicalRefs (env : Env) (server : History) (node : TNode) : History :=
  let server := server ++ addNonHierachicalRefs.loop env node node.nonHierachicalRefs
  -- brute force, maybe not the best way to do this
  server ++ addNonHierachicalRefs.loop env node node.hierachicalRefs

/-- The array `order` of `addNodes`. -/
def order : List TNodeClass :=
  [NODECLASS_REFERENCETYPE, NODECLASS_DATATYPE, NODECLASS_OBJECTTYPE,
   NODECLASS_OBJECT, NODECLASS_METHOD, NODECLASS_VARIABLETYPE,
   NODECLASS_VARIABLE, NODECLASS_VIEW]

/-- The first loop of `addNodes`, over the classes still to import. -/
def addNodes.createLoop (env : Env) (fuel : Nat) :
    List TNodeClass → Loader → History → Except Stuck (Loader × History)
  | [], loader, server => .ok (loader, server)
  | classToImport :: rest, loader, server =>
    match NodesetLoader_forEachNode loader classToImport server
        (fun server node => (addNode env fuel server node).map (fun server => (server, node))) with
    | .error e => .error e
    | .ok (loader, server, cnt) =>
      match (if classToImport = NODECLASS_DATATYPE then importDataTypes env fuel loader server
             else .ok (loader, server)) with
      | .error e => .error e
      | .ok (loader, server) =>
        addNodes.createLoop env fuel rest loader
          (server ++ [.log .NODESETLOADER_LOGLEVEL_DEBUG "imported %ss: %zu"
            [.className classToImport, .size cnt]])

/-- The second loop of `addNodes`, over the classes still to visit. -/
def addNodes.referenceLoop (env : Env) :
    List TNodeClass → Loader → History → Except Stuck (Loader × History)
  | [], loader, server => .ok (loader, server)
  | classToImport :: rest, loader, server =>
    match NodesetLoader_forEachNode loader classToImport server
        (fun server node => .ok (addNonHierachicalRefs env server node, node)) with
    | .error e => .error e
    | .ok (loader, server, _) => addNodes.referenceLoop env rest loader server

/-- The function `addNodes`; the index `i` runs over `order`, which has
`NODECLASS_COUNT` entries. -/
def addNodes (env : Env) (fuel : Nat) (loader : Loader) (server : History) :
    Except Stuck (Loader × History) :=
  match addNodes.createLoop env fuel order loader server with
  | .error e => .error e
  | .ok (loader, server) => addNodes.referenceLoop env order loader server

/-- The function `NodesetLoader_loadFile`: the returned status and the history
afterwards. `server = none` and `path = none` are the null pointers. The logger,
the reference service and the loader object are created and released without
a call that the model records. -/
def NodesetLoader_loadFile (env : Env) (fuel : Nat) (server : Option History)
    (path : Option String) : Except Stuck (Bool × History) :=
  match server with
  | none => .ok (false, [])
  | some server =>
    match path with
    | none => .ok (false, server)
    | some path =>
      let server := server ++
        [.log .NODESETLOADER_LOGLEVEL_DEBUG "Start import nodeset: %s" [.str path]]
      let imported := env.NodesetLoader_importFile server path
      let importStatus := imported.1
      let server := server ++ [.NodesetLoader_importFile path]
      let sorted := env.NodesetLoader_sort imported.2
      let sortStatus := sorted.1
      let server := server ++ [.NodesetLoader_sort]
      let status := importStatus && sortStatus
      if status && sortStatus then
        match addNodes env fuel sorted.2 server with
        | .error e => .error e
        | .ok (_, server) => .ok (status, server)
      else
        .ok (status, server ++ [.log .NODESETLOADER_LOGLEVEL_ERROR
          "importing the nodeset failed, nodes were not added" []])

/-! ## Definitions used to state the theorems -/

/-- The standard namespace, entry 0 of every list. -/
def standardNamespace : Namespace := { name := "http://opcfoundation.org/UA/", idx := 0 }

/-- The indices the callback returns while `uris` are registered one after the
other, starting in backend state `ctx`. -/
def callbackResults {σ : Type} (cb : σ → String → Int × σ) : σ → List String → List Int
  | _, [] => []
  | ctx, uri :: uris => (cb ctx uri).1 :: callbackResults cb (cb ctx uri).2 uris

/-- A backend callback for the examples, in the manner of `UA_Server_addNamespace`:
the state is the server's namespace array; a known uri yields its index, a new
one is appended. -/
def exampleAddNamespace (namespaces : List String) (uri : String) : Int × List String :=
  if uri ∈ namespaces then ((namespaces.indexOf uri : Nat), namespaces)
  else ((namespaces.length : Nat), namespaces ++ [uri])

/-- The list `NamespaceList_new` returns for the example callback. -/
def exampleNamespaceList : NamespaceList (List String) :=
  { size := 1, data := [standardNamespace], cb := exampleAddNamespace }

/-- A conversion for the examples: the text `i=<n>` is the numeric identifier `n` in
the given namespace, anything else is the null identifier. -/
def exampleNodeId (id : TNodeId) : UA_NodeId :=
  match id.id with
  | none => UA_NODEID_NULL
  | some s =>
    match s.toList with
    | c :: d :: digits =>
      if c.toNat = 105 ∧ d.toNat = 61 then
        UA_NODEID_NUMERIC id.nsIdx.toNat (atoiChars digits).toNat
      else UA_NODEID_NULL
    | _ => UA_NODEID_NULL

/-- The identifier `ns=<nsIdx>;i=<n>` of the examples. -/
def exampleId (nsIdx : Int) (n : String) : TNodeId := { nsIdx := nsIdx, id := some ("i=" ++ n) }

/-- The absent identifier. -/
def absentId : TNodeId := { nsIdx := 0, id := none }

/-- A node of the examples with the given identifier text, references and class
record. -/
def exampleNode (n : String) (hierachicalRefs : List Reference) (kind : TNodeKind) : TNode :=
  { id := exampleId 1 n
    browseName := { nsIdx := 1, name := "Node" ++ n }
    displayName := { locale := "", text := "Node" ++ n }
    description := { locale := "", text := "" }
    hierachicalRefs := hierachicalRefs
    nonHierachicalRefs := []
    extension := none
    kind := kind }

/-- An environment for the examples: every browse finds nothing, `Int32` is the
one built-in type, no custom type is registered, a value decodes to its text
length when a descriptor is given, the file holds `loader`, and sorting leaves
it as it is. -/
def exampleEnv (loader : Loader) : Env :=
  { getNodeIdFromChars := exampleNodeId
    isTrue := fun s => s = "true"
    UA_Server_browse := fun _ _ _ => { statusCode := UA_STATUSCODE_GOOD, references := [] }
    UA_findDataType := fun id =>
      if id = UA_NODEID_NUMERIC 0 6 then some { typeId := id, typeName := "Int32" } else none
    NodesetLoader_getCustomDataType := fun _ _ => none
    customDataTypes := fun _ => []
    Value_getData := fun value dataType _ =>
      match dataType with
      | some _ => some { mem := [value.text.length] }
      | none => none
    NodesetLoader_importFile := fun _ _ => (true, loader)
    NodesetLoader_sort := fun loader => (true, loader) }

/-- An Object whose explicit parent is the Variable `exampleVariable`. -/
def exampleObject : TNode :=
  exampleNode "1" []
    (.objectNode
      { parentNodeId := exampleId 1 "2"
        eventNotifier := "0"
        refToTypeDef :=
          some { isForward := true, refType := exampleId 0 "40", target := exampleId 0 "58" } })

/-- A Variable below the Objects folder of namespace 0, without a value. -/
def exampleVariable : TNode :=
  exampleNode "2"
    [{ isForward := false, refType := exampleId 0 "35", target := exampleId 0 "85" }]
    (.variableNode
      { parentNodeId := absentId
        datatype := exampleId 0 "6"
        arrayDimensions := ""
        valueRank := "-1"
        accessLevel := "1"
        userAccessLevel := "1"
        historizing := "false"
        value := none
        refToTypeDef :=
          some { isForward := true, refType := exampleId 0 "40", target := exampleId 0 "63" } })

/-- A Variable whose explicit parent is the Object `exampleObject`. -/
def exampleChildVariable : TNode :=
  exampleNode "3" []
    (.variableNode
      { parentNodeId := exampleId 1 "1"
        datatype := exampleId 0 "6"
        arrayDimensions := ""
        valueRank := "-1"
        accessLevel := "1"
        userAccessLevel := "1"
        historizing := "false"
        value := none
        refToTypeDef :=
          some { isForward := true, refType := exampleId 0 "40", target := exampleId 0 "63" } })

/-- A nodeset with one Object and two Variables. -/
def exampleLoader : Loader :=
  { nodes := fun c =>
      match c with
      | NODECLASS_OBJECT => [exampleObject]
      | NODECLASS_VARIABLE => [exampleVariable, exampleChildVariable]
      | _ => []
    hasEncodingRefs := [] }

/-- The result of `addNodes` on the example nodeset and an empty history. -/
def exampleRun : Loader × History :=
  match addNodes (exampleEnv exampleLoader) 5 exampleLoader [] with
  | .ok r => r
  | .error _ => (exampleLoader, [])

/-- What an `addNode` call tells about the order of creation: class and identifier
of the new node, the parent and the type definition it is created under. -/
structure Emitted where
  nodeClass : TNodeClass
  id : UA_NodeId
  parentId : UA_NodeId
  typeDefinition : Option UA_NodeId
  deriving DecidableEq, Repr

/-- The node a call adds, if it adds one. -/
def ServerCall.emitted : ServerCall → Option Emitted
  | .addNode _ nodeClass id parentId _ _ typeDefinition _ _ =>
    some { nodeClass := nodeClass, id := id, parentId := parentId,
           typeDefinition := typeDefinition }
  | _ => none

/-- The sequence of nodes a history adds, in the order of the calls. -/
def emitted (server : History) : List Emitted := server.filterMap ServerCall.emitted

/-- The type definition argument `addNode` passes for the node, when the node's
class has one and the pointer `refToTypeDef` is set. -/
def typeDefinitionOf (env : Env) (node : TNode) : Option UA_NodeId :=
  match node.kind with
  | .objectNode n => n.refToTypeDef.map (fun ref => env.getNodeIdFromChars ref.target)
  | .variableNode n => n.refToTypeDef.map (fun ref => env.getNodeIdFromChars ref.target)
  | .variableTypeNode _ => some UA_NODEID_NULL
  | _ => none

/-- The entry of the emitted sequence that belongs to `node`. -/
def emission (env : Env) (node : TNode) : Emitted :=
  { nodeClass := node.nodeClass
    id := env.getNodeIdFromChars node.id
    parentId := (getParentId env node).1
    typeDefinition := typeDefinitionOf env node }

/-- Position of a class in the array `order`. -/
def classRank (c : TNodeClass) : Nat := order.indexOf c

/-- The node `m` is what `n` depends on: `n` was created under the parent
identifier or under the type definition identifier of `m`, a null identifier
naming no node. -/
def IsDependency (m n : Emitted) : Prop :=
  (n.parentId ≠ UA_NODEID_NULL ∧ m.id = n.parentId) ∨
  (n.typeDefinition ≠ some UA_NODEID_NULL ∧ some m.id = n.typeDefinition)

instance (m n : Emitted) : Decidable (IsDependency m n) :=
  inferInstanceAs (Decidable
    ((n.parentId ≠ UA_NODEID_NULL ∧ m.id = n.parentId) ∨
     (n.typeDefinition ≠ some UA_NODEID_NULL ∧ some m.id = n.typeDefinition)))

/-- In the sequence `l` every dependency of a node stands strictly before the
node. -/
def DependenciesFirst (l : List Emitted) : Prop :=
  ∀ i j : Fin l.length, IsDependency (l.get i) (l.get j) → i < j

instance (l : List Emitted) : Decidable (DependenciesFirst l) :=
  inferInstanceAs (Decidable
    (∀ i j : Fin l.length, IsDependency (l.get i) (l.get j) → i < j))

/-- In the sequence `l` every dependency of a node that is of the node's class or
of a class earlier in `order` stands strictly before the node. -/
def EarlierDependenciesFirst (l : List Emitted) : Prop :=
  ∀ i j : Fin l.length, IsDependency (l.get i) (l.get j) →
    classRank (l.get i).nodeClass ≤ classRank (l.get j).nodeClass → i < j

instance (l : List Emitted) : Decidable (EarlierDependenciesFirst l) :=
  inferInstanceAs (Decidable
    (∀ i j : Fin l.length, IsDependency (l.get i) (l.get j) →
      classRank (l.get i).nodeClass ≤ classRank (l.get j).nodeClass → i < j))

/-- Every container holds nodes of its own class only. -/
def Loader.ClassesMatch (loader : Loader) : Prop :=
  ∀ c, ∀ node ∈ loader.nodes c, node.nodeClass = c

/-- The nodes added between the history `before` and the later history `after`. -/
def emittedSince (before after : History) : List Emitted :=
  (emitted after).drop (emitted before).length

/-- A DataType node of the examples whose one inverse hierarchical reference (a
subtype reference) names `base` as its base type. -/
def exampleDataType (n base : String) : TNode :=
  exampleNode n
    [{ isForward := false, refType := exampleId 0 "45", target := exampleId 1 base }]
    (.dataTypeNode { isAbstract := "false" })

/-- A nodeset with two DataType nodes that are each other's base type and an
unrelated Object. -/
def cyclicLoader : Loader :=
  { nodes := fun c =>
      match c with
      | NODECLASS_DATATYPE => [exampleDataType "10" "11", exampleDataType "11" "10"]
      | NODECLASS_OBJECT => [exampleObject]
      | _ => []
    hasEncodingRefs := [] }

/-- What is left of `cyclicLoader` without the two nodes of the cycle. -/
def cyclicLoaderSorted : Loader :=
  { nodes := fun c =>
      match c with
      | NODECLASS_OBJECT => [exampleObject]
      | _ => []
    hasEncodingRefs := [] }

/-- An environment in which the file parses to `cyclicLoader` and sorting reports
failure, leaving the nodes outside the cycle. -/
def cyclicEnv : Env :=
  { exampleEnv cyclicLoader with
    NodesetLoader_sort := fun _ => (false, cyclicLoaderSorted) }

/-- A Variable record of the examples with value rank `valueRank`, no array
dimensions, data type `Int32` and the given literal value. -/
def exampleValueVariableNode (valueRank : String) (value : Value) : TVariableNode :=
  { parentNodeId := absentId
    datatype := exampleId 0 "6"
    arrayDimensions := ""
    valueRank := valueRank
    accessLevel := "1"
    userAccessLevel := "1"
    historizing := "false"
    value := some value
    refToTypeDef :=
      some { isForward := true, refType := exampleId 0 "40", target := exampleId 0 "63" } }

/-- A literal array of three elements. -/
def exampleArrayValue : Value := { isArray := true, membersSize := 3, text := "1 13 300" }

/-- A literal scalar. -/
def exampleScalarValue : Value := { isArray := false, membersSize := 0, text := "1" }

/-- The `Int32` descriptor of the example environment. -/
def exampleInt32 : UA_DataType := { typeId := UA_NODEID_NUMERIC 0 6, typeName := "Int32" }

/-- Two has-encoding triples of the DataType `ns=1;i=20`: its binary and its XML
encoding. -/
def exampleEncodings : List BiDirectionalReference :=
  [{ source := exampleId 1 "20", target := exampleId 1 "21", refType := exampleId 0 "38" },
   { source := exampleId 1 "20", target := exampleId 1 "23", refType := exampleId 0 "38" }]

/-- The node can be handed to `addNode` within C's defined behaviour: an Object or
Variable has its type definition reference set, and the dimension string of a
Variable has no second component. -/
def TNode.Defined (node : TNode) : Prop :=
  (match node.kind with
   | .objectNode n => n.refToTypeDef.isSome
   | .variableNode n =>
     n.refToTypeDef.isSome && (strchr n.arrayDimensions.toList (Char.ofNat 59)).isNone
   | _ => true) = true

instance (node : TNode) : Decidable node.Defined :=
  inferInstanceAs (Decidable (_ = true))

/-- With `fuel` iterations every walk of `getParentType` reaches a known parent. -/
def Env.FuelSuffices (env : Env) (fuel : Nat) : Prop :=
  ∀ (server : History) (id : UA_NodeId), ∃ parent, getParentType env server fuel id = .ok parent

/-- The first reference of the list that is not forward, as `List.find?` finds it. -/
def firstInverse (refs : List Reference) : Option Reference :=
  refs.find? (fun ref => !ref.isForward)

/-- A node of the examples with two hierarchical references, the second and third
of them inverse. -/
def exampleMethod : TNode :=
  exampleNode "30"
    [{ isForward := true, refType := exampleId 0 "46", target := exampleId 1 "31" },
     { isForward := false, refType := exampleId 0 "47", target := exampleId 1 "1" },
     { isForward := false, refType := exampleId 0 "35", target := exampleId 0 "85" }]
    (.methodNode { executable := "true", userExecutable := "true" })

/-- The chain `id, parent(id), parent(parent(id)), ...` that `getParentType` walks,
`parent` being `getParentDataType`: the identifier after `n` steps. -/
def parentChain (env : Env) (server : History) : Nat → UA_NodeId → UA_NodeId
  | 0, id => id
  | n + 1, id => parentChain env server n (getParentDataType env server id)

/-- The lookup of `getParentDataType` for `id` fails or does not yield exactly one
parent. -/
def LookupFails (env : Env) (server : History) (id : UA_NodeId) : Prop :=
  (env.UA_Server_browse server 10
      { nodeId := id, inverse := true, nodeClassMask := some NODECLASS_DATATYPE }).statusCode ≠
      UA_STATUSCODE_GOOD ∨
    (env.UA_Server_browse server 10
      { nodeId := id, inverse := true,
        nodeClassMask := some NODECLASS_DATATYPE }).references.length ≠ 1

/-- An environment in which the DataTypes `ns=1;i=10` and `ns=1;i=11` are each
other's single parent, and `ns=1;i=12` has the parent `ns=0;i=22` (Structure). -/
def cyclicBrowseEnv : Env :=
  { exampleEnv exampleLoader with
    UA_Server_browse := fun _ _ bd =>
      if bd.nodeId = UA_NODEID_NUMERIC 1 10 then
        { statusCode := UA_STATUSCODE_GOOD, references := [UA_NODEID_NUMERIC 1 11] }
      else if bd.nodeId = UA_NODEID_NUMERIC 1 11 then
        { statusCode := UA_STATUSCODE_GOOD, references := [UA_NODEID_NUMERIC 1 10] }
      else if bd.nodeId = UA_NODEID_NUMERIC 1 12 then
        { statusCode := UA_STATUSCODE_GOOD, references := [UA_NODEID_NUMERIC 0 22] }
      else { statusCode := UA_STATUSCODE_GOOD, references := [] } }

/-- The callback `cb` together with a record of the uris it is invoked with, in the
order of the invocations. -/
def recordInvocations {σ : Type} (cb : σ → String → Int × σ) :
    σ × List String → String → Int × (σ × List String) :=
  fun ctx uri => ((cb ctx.1 uri).1, ((cb ctx.1 uri).2, ctx.2 ++ [uri]))

/-- The new list for the example callback with its invocations recorded. -/
def recordingNamespaceList : NamespaceList (List String × List String) :=
  { size := 1, data := [standardNamespace], cb := recordInvocations exampleAddNamespace }

/-- The attributes after the value is decoded with the descriptor `dataType`: what
lines 252 to 269 of `handleVariableNode` make of `attr`. -/
def decodedWith (env : Env) (server : History) (attr : UA_VariableAttributes)
    (value : Value) (dataType : Option UA_DataType) : UA_VariableAttributes :=
  match env.Value_getData value dataType (env.customDataTypes server) with
  | some data =>
    if value.isArray then
      { attr with value := UA_Variant_setArray data.mem value.membersSize dataType }
    else { attr with value := UA_Variant_setScalar data.mem dataType }
  | none => attr

/-- A custom descriptor of the examples: the union `ns=1;i=3002`. -/
def exampleUnion : UA_DataType := { typeId := UA_NODEID_NUMERIC 1 3002, typeName := "MyUnion" }

/-- An environment in which the union `ns=1;i=3002` has a custom descriptor, and
its browse would lead to Structure (`ns=0;i=22`). -/
def unionEnv : Env :=
  { exampleEnv exampleLoader with
    NodesetLoader_getCustomDataType := fun _ id =>
      if id = UA_NODEID_NUMERIC 1 3002 then some exampleUnion else none
    UA_Server_browse := fun _ _ bd =>
      if bd.nodeId = UA_NODEID_NUMERIC 1 3002 then
        { statusCode := UA_STATUSCODE_GOOD, references := [UA_NODEID_NUMERIC 0 22] }
      else { statusCode := UA_STATUSCODE_GOOD, references := [] } }

/-- A Variable record of the examples whose declared type is the union. -/
def exampleUnionVariable : TVariableNode :=
  { exampleValueVariableNode "-1" exampleScalarValue with datatype := exampleId 1 "3002" }

/-- The attributes of the union Variable before the value is decoded. -/
def exampleUnionAttributes : UA_VariableAttributes :=
  { displayName := UA_LOCALIZEDTEXT "" "v"
    description := UA_LOCALIZEDTEXT "" ""
    dataType := UA_NODEID_NUMERIC 1 3002
    valueRank := -1
    arrayDimensionsSize := 0
    arrayDimensions := none
    accessLevel := 1
    userAccessLevel := 1
    historizing := false
    value := UA_Variant.empty }

/-- A literal array of no elements. -/
def exampleEmptyArrayValue : Value := { isArray := true, membersSize := 0, text := "" }

/-! # Theorems -/

/-! ## NamespaceList.c: entries are appended, entry 0 is fixed -/

theorem toSizeT_ofNat (n : Nat) (h : n < 2 ^ 31) : toSizeT (n : Int) = n := by
  unfold toSizeT SIZE_WIDTH
  have h1 : (n : Int) % (2 : Int) ^ 64 = (n : Int) := by
    apply Int.emod_eq_of_lt
    · omega
    · have : (n : Int) < 2 ^ 31 := by exact_mod_cast h
      omega
  rw [h1]
  simp

theorem NamespaceList_new_eq {σ : Type} (cb : σ → String → Int × σ) :
    NamespaceList_new true true cb =
      some { size := 1, data := [standardNamespace], cb := cb } := by
  simp [NamespaceList_new, standardNamespace]

theorem newNamespace_data {σ : Type} (list : NamespaceList σ) (ctx : σ) (uri : String)
    (hdata : list.data.length = list.size) :
    (NamespaceList_newNamespace true list ctx uri).1.data =
      list.data ++ [{ name := uri, idx := (list.cb ctx uri).1 }] := by
  simp only [NamespaceList_newNamespace, reallocEntries]
  have h1 : List.take (list.size + 1) list.data = list.data := by
    apply List.take_of_length_le
    omega
  have h2 : list.size + 1 - list.data.length = 1 := by omega
  simp only [Bool.not_true, Bool.false_eq_true, if_false, h1, h2, Nat.add_sub_cancel]
  rw [← hdata]
  simp [List.set_append]

theorem newNamespace_size {σ : Type} (list : NamespaceList σ) (ctx : σ) (uri : String) :
    (NamespaceList_newNamespace true list ctx uri).1.size = list.size + 1 := by
  simp [NamespaceList_newNamespace]

theorem newNamespace_cb {σ : Type} (list : NamespaceList σ) (ctx : σ) (uri : String) :
    (NamespaceList_newNamespace true list ctx uri).1.cb = list.cb := by
  simp [NamespaceList_newNamespace]

theorem newNamespace_ctx {σ : Type} (list : NamespaceList σ) (ctx : σ) (uri : String) :
    (NamespaceList_newNamespace true list ctx uri).2.1 = (list.cb ctx uri).2 := by
  simp [NamespaceList_newNamespace]

/-- Every reachable list has `size` entries, at least one, and the first is the
standard namespace. -/
theorem reachable_invariant {σ : Type} (list : NamespaceList σ)
    (h : NamespaceList.Reachable list) :
    list.data.length = list.size ∧ list.data[0]? = some standardNamespace := by
  induction h with
  | new cb list h =>
    rw [NamespaceList_new_eq] at h
    cases h
    simp
  | newNamespace list ctx uri _ ih =>
    obtain ⟨hlen, h0⟩ := ih
    rw [newNamespace_data list ctx uri hlen, newNamespace_size]
    refine ⟨by simp [hlen], ?_⟩
    have hpos : 0 < list.data.length := by
      cases hd : list.data with
      | nil => simp [hd] at h0
      | cons a t => simp
    rw [List.getElem?_append_left hpos]
    exact h0

theorem getNamespace_of_lt {σ : Type} (list : NamespaceList σ) (k : Nat)
    (hk : k < 2 ^ 31) (hlt : k < list.size) (ns : Namespace) (hns : list.data[k]? = some ns) :
    NamespaceList_getNamespace list (k : Int) = .ok (some ns) := by
  unfold NamespaceList_getNamespace
  rw [toSizeT_ofNat k hk]
  have h1 : ¬ (k ≥ list.size) := by omega
  have h2 : ¬ ((k : Int) < 0) := by omega
  simp only [h1, h2, if_false, Int.toNat_ofNat, hns]

/-- What `registerAll` produces from a list that has `size` entries. -/
theorem registerAll_spec {σ : Type} (uris : List String) (list : NamespaceList σ) (ctx : σ)
    (hdata : list.data.length = list.size) :
    (registerAll list ctx uris).1.size = list.size + uris.length ∧
    (registerAll list ctx uris).1.data =
      list.data ++ List.zipWith (fun i u => ({ name := u, idx := i } : Namespace))
        (callbackResults list.cb ctx uris) uris := by
  induction uris generalizing list ctx with
  | nil => simp [registerAll, callbackResults]
  | cons uri uris ih =>
    have hlen : (NamespaceList_newNamespace true list ctx uri).1.data.length =
        (NamespaceList_newNamespace true list ctx uri).1.size := by
      rw [newNamespace_data list ctx uri hdata, newNamespace_size]
      simp [hdata]
    obtain ⟨h1, h2⟩ := ih (NamespaceList_newNamespace true list ctx uri).1
      (NamespaceList_newNamespace true list ctx uri).2.1 hlen
    simp only [registerAll, callbackResults]
    rw [h1, h2, newNamespace_size, newNamespace_data list ctx uri hdata, newNamespace_cb,
      newNamespace_ctx]
    constructor
    · simp; omega
    · simp

theorem callbackResults_length {σ : Type} (cb : σ → String → Int × σ) (uris : List String)
    (ctx : σ) : (callbackResults cb ctx uris).length = uris.length := by
  induction uris generalizing ctx with
  | nil => rfl
  | cons u us ih => simp [callbackResults, ih]

/-- C9: in every namespace list reachable from `NamespaceList_new` by any finite
sequence of `NamespaceList_newNamespace` calls, `NamespaceList_getNamespace(list, 0)`
returns the standard namespace: uri "http://opcfoundation.org/UA/", global index 0. -/
theorem getNamespace_zero_standard {σ : Type} (list : NamespaceList σ)
    (h : NamespaceList.Reachable list) :
    NamespaceList_getNamespace list 0 =
      .ok (some { name := "http://opcfoundation.org/UA/", idx := 0 }) := by
  obtain ⟨hlen, h0⟩ := reachable_invariant list h
  have hpos : 0 < list.size := by
    rw [← hlen]
    cases hd : list.data with
    | nil => simp [hd] at h0
    | cons a t => simp
  have := getNamespace_of_lt list 0 (by norm_num) hpos standardNamespace h0
  simpa [standardNamespace] using this

/-- Witness of C9: the list after one registration on the example callback. -/
theorem getNamespace_zero_standard_witness :
    NamespaceList.Reachable
        (NamespaceList_newNamespace true exampleNamespaceList
          ["http://opcfoundation.org/UA/"] "urn:example:machine").1 ∧
      NamespaceList_getNamespace
        (NamespaceList_newNamespace true exampleNamespaceList
          ["http://opcfoundation.org/UA/"] "urn:example:machine").1 0 =
        .ok (some { name := "http://opcfoundation.org/UA/", idx := 0 }) :=
  ⟨.newNamespace _ _ _ (.new exampleAddNamespace _ (NamespaceList_new_eq _)),
   getNamespace_zero_standard _
    (.newNamespace _ _ _ (.new exampleAddNamespace _ (NamespaceList_new_eq _)))⟩

/-- C10: `NamespaceList_newNamespace` is a pure append (allocation succeeding): on a
list of size `n` (with its `n` entries) the list afterwards has size `n + 1`, the
entries at indices `0..n-1` are unchanged, and the entry at index `n`, which is
also the returned entry, holds the uri and the global index the callback returned
for it; hence after registering `uris` on a new list, the `k`-th of them is found
at nodeset-local index `k` by `NamespaceList_getNamespace`. -/
theorem newNamespace_pure_append {σ : Type} (list : NamespaceList σ) (ctx : σ) (uri : String)
    (n : Nat) (hsize : list.size = n) (hdata : list.data.length = n) :
    ((NamespaceList_newNamespace true list ctx uri).1.size = n + 1 ∧
      (NamespaceList_newNamespace true list ctx uri).1.data.length = n + 1 ∧
      (∀ i, i < n →
        (NamespaceList_newNamespace true list ctx uri).1.data[i]? = list.data[i]?) ∧
      (NamespaceList_newNamespace true list ctx uri).1.data[n]? =
        some { name := uri, idx := (list.cb ctx uri).1 } ∧
      (NamespaceList_newNamespace true list ctx uri).2.2 =
        some { name := uri, idx := (list.cb ctx uri).1 }) ∧
    (∀ (cb : σ → String → Int × σ) (list0 : NamespaceList σ) (uris : List String) (k : Nat),
      NamespaceList_new true true cb = some list0 → 1 ≤ k → k ≤ uris.length → k < 2 ^ 31 →
      NamespaceList_getNamespace (registerAll list0 ctx uris).1 (k : Int) =
        .ok (some { name := uris.getD (k - 1) "",
                    idx := (callbackResults cb ctx uris).getD (k - 1) 0 })) := by
  have hlen : list.data.length = list.size := by omega
  have hd := newNamespace_data list ctx uri hlen
  refine ⟨⟨?_, ?_, ?_, ?_, ?_⟩, ?_⟩
  · rw [newNamespace_size, hsize]
  · rw [hd]; simp [hdata]
  · intro i hi
    rw [hd, List.getElem?_append_left (by omega)]
  · rw [hd, List.getElem?_append_right (by omega)]
    simp [hdata]
  · have : (NamespaceList_newNamespace true list ctx uri).2.2 =
        (NamespaceList_newNamespace true list ctx uri).1.data[list.size]? := by
      simp [NamespaceList_newNamespace]
    rw [this, hd, List.getElem?_append_right (by omega)]
    simp [hlen]
  · intro cb list0 uris k hnew h1 hk hint
    rw [NamespaceList_new_eq] at hnew
    cases hnew
    obtain ⟨hs, hdat⟩ := registerAll_spec uris
      ({ size := 1, data := [standardNamespace], cb := cb } : NamespaceList σ) ctx rfl
    apply getNamespace_of_lt _ k hint
    · rw [hs]; simp; omega
    · rw [hdat]
      have hcl := callbackResults_length cb uris ctx
      obtain ⟨j, rfl⟩ : ∃ j, k = j + 1 := ⟨k - 1, by omega⟩
      have hj : j < uris.length := by omega
      simp [List.getElem?_zipWith, List.getD_eq_getElem?_getD, hj, hcl,
        List.getElem?_eq_getElem]

/-! ## import.c: the order in which `addNodes` creates the nodes -/

theorem emitted_append (a b : History) : emitted (a ++ b) = emitted a ++ emitted b := by
  simp [emitted]

/-- A successful `addNode` appends exactly one call, the one that adds the node. -/
theorem addNode_emitted (env : Env) (fuel : Nat) (server server' : History) (node : TNode)
    (h : addNode env fuel server node = .ok server') :
    emitted server' = emitted server ++ [emission env node] := by
  unfold addNode at h
  cases hk : node.kind with
  | objectNode n =>
    simp only [hk, handleObjectNode] at h
    cases hr : n.refToTypeDef with
    | none => simp [hr, typeDefTarget] at h
    | some ref =>
      simp only [hr, typeDefTarget] at h
      cases h
      simp [emitted_append, emitted, ServerCall.emitted, emission, typeDefinitionOf, hk, hr,
        TNode.nodeClass]
  | variableNode n =>
    simp only [hk, handleVariableNode] at h
    cases ha : handleVariableNode.attributes env n
        (UA_LOCALIZEDTEXT node.displayName.locale node.displayName.text)
        (UA_LOCALIZEDTEXT node.description.locale node.description.text) with
    | error e => simp [ha] at h
    | ok attr =>
      simp only [ha] at h
      cases hv : handleVariableNode.value env fuel n server attr with
      | error e => simp [hv] at h
      | ok attr2 =>
        simp only [hv] at h
        cases hr : n.refToTypeDef with
        | none => simp [hr, typeDefTarget] at h
        | some ref =>
          simp only [hr, typeDefTarget] at h
          cases h
          simp [emitted_append, emitted, ServerCall.emitted, emission, typeDefinitionOf, hk,
            hr, TNode.nodeClass]
  | methodNode n =>
    simp only [hk, handleMethodNode] at h
    cases h
    simp [emitted_append, emitted, ServerCall.emitted, emission, typeDefinitionOf, hk,
      TNode.nodeClass]
  | objectTypeNode n =>
    simp only [hk, handleObjectTypeNode] at h
    cases h
    simp [emitted_append, emitted, ServerCall.emitted, emission, typeDefinitionOf, hk,
      TNode.nodeClass]
  | variableTypeNode n =>
    simp only [hk, handleVariableTypeNode] at h
    cases h
    simp [emitted_append, emitted, ServerCall.emitted, emission, typeDefinitionOf, hk,
      TNode.nodeClass]
  | referenceTypeNode n =>
    simp only [hk, handleReferenceTypeNode] at h
    cases h
    simp [emitted_append, emitted, ServerCall.emitted, emission, typeDefinitionOf, hk,
      TNode.nodeClass]
  | dataTypeNode n =>
    simp only [hk, handleDataTypeNode] at h
    cases h
    simp [emitted_append, emitted, ServerCall.emitted, emission, typeDefinitionOf, hk,
      TNode.nodeClass]
  | viewNode n =>
    simp only [hk, handleViewNode] at h
    cases h
    simp [emitted_append, emitted, ServerCall.emitted, emission, typeDefinitionOf, hk,
      TNode.nodeClass]

theorem except_map_ok {ε α β : Type} (f : α → β) (a : α) :
    Except.map f (Except.ok a : Except ε α) = Except.ok (f a) := rfl

theorem except_map_error {ε α β : Type} (f : α → β) (e : ε) :
    Except.map f (Except.error e : Except ε α) = Except.error e := rfl

/-- The nodes of a container are added one after the other, in container order, and
the container is left as it is. -/
theorem forEach_addNode_emitted (env : Env) (fuel : Nat) (nodes : List TNode)
    (server : History) (r : List TNode × History)
    (h : forEachNode.loop
      (fun server node => (addNode env fuel server node).map (fun server => (server, node)))
      nodes server = .ok r) :
    r.1 = nodes ∧ emitted r.2 = emitted server ++ nodes.map (emission env) := by
  induction nodes generalizing server r with
  | nil =>
    simp only [forEachNode.loop] at h
    cases h
    simp
  | cons node rest ih =>
    simp only [forEachNode.loop] at h
    cases ha : addNode env fuel server node with
    | error e => simp [ha, except_map_error] at h
    | ok server1 =>
      simp only [ha, except_map_ok] at h
      cases hr : forEachNode.loop
          (fun server node => (addNode env fuel server node).map (fun server => (server, node)))
          rest server1 with
      | error e => simp [hr] at h
      | ok r1 =>
        simp only [hr] at h
        cases h
        obtain ⟨h1, h2⟩ := ih server1 r1 hr
        have h3 := addNode_emitted env fuel server server1 node ha
        simp [h1, h2, h3]

theorem addDataType_loop_emission (env : Env) (node : TNode)
    (refs : List BiDirectionalReference) :
    emission env (addDataType.loop node refs) = emission env node ∧
      (addDataType.loop node refs).id = node.id := by
  induction refs with
  | nil => simp [addDataType.loop]
  | cons r next ih =>
    simp only [addDataType.loop]
    split
    · simp [emission, typeDefinitionOf, getParentId, getHierachicalInverseReference,
        TNode.nodeClass]
    · exact ih

theorem addDataType_emitted (env : Env) (fuel : Nat) (ctx : DataTypeImportCtx) (node : TNode)
    (r : DataTypeImportCtx × TNode) (h : addDataType env fuel ctx node = .ok r) :
    emitted r.1.server = emitted ctx.server ∧ emission env r.2 = emission env node := by
  simp only [addDataType] at h
  split at h
  · simp at h
  · cases h
    simp [emitted_append, emitted, ServerCall.emitted, addDataType_loop_emission]

theorem forEach_addDataType_emitted (env : Env) (fuel : Nat) (nodes : List TNode)
    (ctx : DataTypeImportCtx) (r : List TNode × DataTypeImportCtx)
    (h : forEachNode.loop (addDataType env fuel) nodes ctx = .ok r) :
    emitted r.2.server = emitted ctx.server ∧
      r.1.map (emission env) = nodes.map (emission env) := by
  induction nodes generalizing ctx r with
  | nil =>
    simp only [forEachNode.loop] at h
    cases h
    simp
  | cons node rest ih =>
    simp only [forEachNode.loop] at h
    cases ha : addDataType env fuel ctx node with
    | error e => simp [ha] at h
    | ok r0 =>
      obtain ⟨ctx1, node1⟩ := r0
      simp only [ha] at h
      cases hr : forEachNode.loop (addDataType env fuel) rest ctx1 with
      | error e => simp [hr] at h
      | ok r1 =>
        simp only [hr] at h
        cases h
        obtain ⟨h1, h2⟩ := ih ctx1 r1 hr
        obtain ⟨h3, h4⟩ := addDataType_emitted env fuel ctx node _ ha
        simp only at h3 h4
        simp [h1, h2, h3, h4]

/-- The function `importDataTypes` adds no node and leaves what each node emits as it is. -/
theorem importDataTypes_emitted (env : Env) (fuel : Nat) (loader : Loader) (server : History)
    (r : Loader × History) (h : importDataTypes env fuel loader server = .ok r) :
    emitted r.2 = emitted server ∧
      ∀ c, (r.1.nodes c).map (emission env) = (loader.nodes c).map (emission env) := by
  simp only [importDataTypes, NodesetLoader_forEachNode] at h
  cases hl : forEachNode.loop (addDataType env fuel) (loader.nodes NODECLASS_DATATYPE)
      { hasEncodingRef := NodesetLoader_getBidirectionalRefs loader,
        server := server ++ [ServerCall.DataTypeImporter_new] } with
  | error e => simp [hl] at h
  | ok r1 =>
    simp only [hl] at h
    cases h
    obtain ⟨h1, h2⟩ := forEach_addDataType_emitted env fuel _ _ r1 hl
    constructor
    · simp only [emitted_append, h1]
      simp [emitted, ServerCall.emitted]
    · intro c
      by_cases hc : c = NODECLASS_DATATYPE
      · subst hc
        simp [h2]
      · simp [Function.update_noteq hc]

/-- The first loop of `addNodes` adds, class after class of `classes`, the nodes of the
class's container in container order. -/
theorem createLoop_emitted (env : Env) (fuel : Nat) (classes : List TNodeClass)
    (loader : Loader) (server : History) (r : Loader × History)
    (h : addNodes.createLoop env fuel classes loader server = .ok r) :
    emitted r.2 =
        emitted server ++ classes.flatMap (fun c => (loader.nodes c).map (emission env)) ∧
      ∀ c, (r.1.nodes c).map (emission env) = (loader.nodes c).map (emission env) := by
  induction classes generalizing loader server r with
  | nil =>
    simp only [addNodes.createLoop] at h
    cases h
    simp
  | cons cls rest ih =>
    simp only [addNodes.createLoop, NodesetLoader_forEachNode] at h
    cases hl : forEachNode.loop
        (fun server node => (addNode env fuel server node).map (fun server => (server, node)))
        (loader.nodes cls) server with
    | error e => simp [hl] at h
    | ok r1 =>
      obtain ⟨h1, h2⟩ := forEach_addNode_emitted env fuel _ _ r1 hl
      simp only [hl, h1, Function.update_eq_self] at h
      by_cases hc : cls = NODECLASS_DATATYPE
      · simp only [hc, if_true] at h
        cases hi : importDataTypes env fuel loader r1.2 with
        | error e => simp [hi] at h
        | ok r2 =>
          simp only [hi] at h
          obtain ⟨h3, h4⟩ := importDataTypes_emitted env fuel loader r1.2 r2 hi
          obtain ⟨h5, h6⟩ := ih r2.1 _ r h
          constructor
          · rw [h5, emitted_append, h3, h2]
            simp [emitted, ServerCall.emitted, hc, h4]
          · intro c
            rw [h6, h4]
      · simp only [hc, if_false] at h
        obtain ⟨h5, h6⟩ := ih loader _ r h
        constructor
        · rw [h5, emitted_append, h2]
          simp [emitted, ServerCall.emitted]
        · exact h6

theorem addRefs_loop_emitted (env : Env) (node : TNode) (refs : List Reference) :
    emitted (addNonHierachicalRefs.loop env node refs) = [] := by
  induction refs with
  | nil => rfl
  | cons ref next ih =>
    simp only [addNonHierachicalRefs.loop]
    simpa [emitted, ServerCall.emitted] using ih

theorem forEach_addRefs_emitted (env : Env) (nodes : List TNode) (server : History)
    (r : List TNode × History)
    (h : forEachNode.loop
      (fun server node => Except.ok (addNonHierachicalRefs env server node, node))
      nodes server = .ok r) :
    emitted r.2 = emitted server := by
  induction nodes generalizing server r with
  | nil =>
    simp only [forEachNode.loop] at h
    cases h
    rfl
  | cons node rest ih =>
    simp only [forEachNode.loop] at h
    cases hr : forEachNode.loop
        (fun server node => Except.ok (addNonHierachicalRefs env server node, node))
        rest (addNonHierachicalRefs env server node) with
    | error e => simp [hr] at h
    | ok r1 =>
      simp only [hr] at h
      cases h
      rw [ih _ r1 hr]
      simp [addNonHierachicalRefs, emitted_append, addRefs_loop_emitted]

/-- The second loop of `addNodes` adds references only. -/
theorem referenceLoop_emitted (env : Env) (classes : List TNodeClass) (loader : Loader)
    (server : History) (r : Loader × History)
    (h : addNodes.referenceLoop env classes loader server = .ok r) :
    emitted r.2 = emitted server := by
  induction classes generalizing loader server r with
  | nil =>
    simp only [addNodes.referenceLoop] at h
    cases h
    rfl
  | cons cls rest ih =>
    simp only [addNodes.referenceLoop, NodesetLoader_forEachNode] at h
    cases hl : forEachNode.loop
        (fun server node => Except.ok (addNonHierachicalRefs env server node, node))
        (loader.nodes cls) server with
    | error e => simp [hl] at h
    | ok r1 =>
      simp only [hl] at h
      rw [ih _ _ r h]
      exact forEach_addRefs_emitted env _ _ r1 hl

/-- The nodes `addNodes` adds: for each class of `order` in turn, the nodes of its
container in container order. -/
theorem addNodes_emitted (env : Env) (fuel : Nat) (loader : Loader) (server : History)
    (r : Loader × History) (h : addNodes env fuel loader server = .ok r) :
    emitted r.2 =
      emitted server ++ order.flatMap (fun c => (loader.nodes c).map (emission env)) := by
  simp only [addNodes] at h
  cases hc : addNodes.createLoop env fuel order loader server with
  | error e => simp [hc] at h
  | ok r1 =>
    simp only [hc] at h
    rw [referenceLoop_emitted env order r1.1 r1.2 r h]
    exact (createLoop_emitted env fuel order loader server r1 hc).1

/-- If no later element stands in relation `D` to an earlier one or to itself, then
whatever stands in relation `D` to an element stands strictly before it. -/
theorem index_lt_of_pairwise {α : Type} (D : α → α → Prop) (l : List α)
    (hp : l.Pairwise (fun a b => ¬ D b a)) (hs : ∀ a ∈ l, ¬ D a a) :
    ∀ i j : Fin l.length, D (l.get i) (l.get j) → i < j := by
  intro i j hd
  by_contra hlt
  rcases Nat.lt_or_ge j.val i.val with hji | hji
  · have := (List.pairwise_iff_getElem.1 hp) j.val i.val j.isLt i.isLt hji
    exact this hd
  · have hij : i = j := by
      apply Fin.ext
      have : ¬ (i.val < j.val) := fun h => hlt h
      omega
    subst hij
    exact hs _ (List.get_mem l i.val i.isLt) hd

/-- The converse of `index_lt_of_pairwise`. -/
theorem pairwise_of_index_lt {α : Type} (D : α → α → Prop) (l : List α)
    (h : ∀ i j : Fin l.length, D (l.get i) (l.get j) → i < j) :
    l.Pairwise (fun a b => ¬ D b a) ∧ ∀ a ∈ l, ¬ D a a := by
  constructor
  · rw [List.pairwise_iff_getElem]
    intro i j hi hj hij hd
    have := h ⟨j, hj⟩ ⟨i, hi⟩ hd
    simp only [Fin.mk_lt_mk] at this
    omega
  · intro a ha hd
    obtain ⟨n, hn, rfl⟩ := List.getElem_of_mem ha
    have := h ⟨n, hn⟩ ⟨n, hn⟩ hd
    exact lt_irrefl _ this

theorem emittedSince_addNodes (env : Env) (fuel : Nat) (loader : Loader) (server : History)
    (r : Loader × History) (h : addNodes env fuel loader server = .ok r) :
    emittedSince server r.2 = order.flatMap (fun c => (loader.nodes c).map (emission env)) := by
  simp [emittedSince, addNodes_emitted env fuel loader server r h]

theorem emission_class_of_mem (env : Env) (loader : Loader) (hwf : loader.ClassesMatch)
    (c : TNodeClass) (x : Emitted) (hx : x ∈ (loader.nodes c).map (emission env)) :
    x.nodeClass = c := by
  obtain ⟨node, hnode, rfl⟩ := List.mem_map.1 hx
  exact hwf c node hnode

/-! ## import.c: `NodesetLoader_loadFile` -/

/-- C3, as stated, fails: the file parses, sorting reports failure and leaves the
Object `ns=1;i=1` that is not part of the cycle, and `NodesetLoader_loadFile`
returns false after logging the error, without adding that Object or any node. -/
theorem loadFile_adds_nothing_after_cycle :
    (cyclicEnv.NodesetLoader_importFile
        [.log .NODESETLOADER_LOGLEVEL_DEBUG "Start import nodeset: %s" [.str "cycle.xml"]]
        "cycle.xml").1 = true ∧
      (cyclicEnv.NodesetLoader_sort cyclicLoader).1 = false ∧
      exampleObject ∈ (cyclicEnv.NodesetLoader_sort cyclicLoader).2.nodes NODECLASS_OBJECT ∧
      NodesetLoader_loadFile cyclicEnv 5 (some []) (some "cycle.xml") =
        .ok (false,
          [.log .NODESETLOADER_LOGLEVEL_DEBUG "Start import nodeset: %s" [.str "cycle.xml"],
           .NodesetLoader_importFile "cycle.xml",
           .NodesetLoader_sort,
           .log .NODESETLOADER_LOGLEVEL_ERROR
             "importing the nodeset failed, nodes were not added" []]) ∧
      emitted
          [.log .NODESETLOADER_LOGLEVEL_DEBUG "Start import nodeset: %s" [.str "cycle.xml"],
           .NodesetLoader_importFile "cycle.xml",
           .NodesetLoader_sort,
           .log .NODESETLOADER_LOGLEVEL_ERROR
             "importing the nodeset failed, nodes were not added" []] = [] :=
  ⟨rfl, rfl, by decide, rfl, rfl⟩

/-- C3, amended: when parsing the file succeeds but `NodesetLoader_sort` reports
failure, `NodesetLoader_loadFile` does not run `addNodes`: it logs that the nodes
were not added, adds no node to the server, and returns false. -/
theorem loadFile_sort_failure (env : Env) (fuel : Nat) (server : History) (path : String)
    (himport : (env.NodesetLoader_importFile
      (server ++ [.log .NODESETLOADER_LOGLEVEL_DEBUG "Start import nodeset: %s" [.str path]])
      path).1 = true)
    (hsort : (env.NodesetLoader_sort (env.NodesetLoader_importFile
      (server ++ [.log .NODESETLOADER_LOGLEVEL_DEBUG "Start import nodeset: %s" [.str path]])
      path).2).1 = false) :
    NodesetLoader_loadFile env fuel (some server) (some path) =
        .ok (false, server ++
          [.log .NODESETLOADER_LOGLEVEL_DEBUG "Start import nodeset: %s" [.str path],
           .NodesetLoader_importFile path,
           .NodesetLoader_sort,
           .log .NODESETLOADER_LOGLEVEL_ERROR
             "importing the nodeset failed, nodes were not added" []]) ∧
      emittedSince server (server ++
          [.log .NODESETLOADER_LOGLEVEL_DEBUG "Start import nodeset: %s" [.str path],
           .NodesetLoader_importFile path,
           .NodesetLoader_sort,
           .log .NODESETLOADER_LOGLEVEL_ERROR
             "importing the nodeset failed, nodes were not added" []]) = [] := by
  constructor
  · simp [NodesetLoader_loadFile, himport, hsort]
  · simp [emittedSince, emitted_append, emitted, ServerCall.emitted]

/-- Witness of C3 as amended: the file with the cycle. -/
theorem loadFile_sort_failure_witness :
    (cyclicEnv.NodesetLoader_importFile
        ([] ++ [.log .NODESETLOADER_LOGLEVEL_DEBUG "Start import nodeset: %s"
          [.str "cycle.xml"]]) "cycle.xml").1 = true ∧
      (cyclicEnv.NodesetLoader_sort (cyclicEnv.NodesetLoader_importFile
        ([] ++ [.log .NODESETLOADER_LOGLEVEL_DEBUG "Start import nodeset: %s"
          [.str "cycle.xml"]]) "cycle.xml").2).1 = false ∧
      NodesetLoader_loadFile cyclicEnv 5 (some []) (some "cycle.xml") =
        .ok (false, [] ++
          [.log .NODESETLOADER_LOGLEVEL_DEBUG "Start import nodeset: %s" [.str "cycle.xml"],
           .NodesetLoader_importFile "cycle.xml",
           .NodesetLoader_sort,
           .log .NODESETLOADER_LOGLEVEL_ERROR
             "importing the nodeset failed, nodes were not added" []]) :=
  ⟨rfl, rfl, (loadFile_sort_failure cyclicEnv 5 [] "cycle.xml" rfl rfl).1⟩

/-- C4: `NodesetLoader_loadFile` returns false, and makes no call at all, when
`server` or `path` is null; otherwise it imports the file and sorts, runs `addNodes`
exactly when both report success (its result is then what `addNodes` leaves,
with status true), logs the failure instead when one of them does not, and the
boolean it returns is true exactly when both report success. -/
theorem loadFile_status (env : Env) (fuel : Nat) (server : Option History)
    (path : Option String) :
    (server = none ∨ path = none →
      NodesetLoader_loadFile env fuel server path = .ok (false, server.getD [])) ∧
    (∀ (s : History) (p : String) (importStatus sortStatus : Bool) (parsed sorted : Loader),
      server = some s → path = some p →
      env.NodesetLoader_importFile
        (s ++ [.log .NODESETLOADER_LOGLEVEL_DEBUG "Start import nodeset: %s" [.str p]]) p =
        (importStatus, parsed) →
      env.NodesetLoader_sort parsed = (sortStatus, sorted) →
      (importStatus = true ∧ sortStatus = true →
        NodesetLoader_loadFile env fuel server path =
          (addNodes env fuel sorted
            (s ++ [.log .NODESETLOADER_LOGLEVEL_DEBUG "Start import nodeset: %s" [.str p],
                   .NodesetLoader_importFile p, .NodesetLoader_sort])).map
            (fun r => (true, r.2))) ∧
      (¬ (importStatus = true ∧ sortStatus = true) →
        NodesetLoader_loadFile env fuel server path =
          .ok (false,
            s ++ [.log .NODESETLOADER_LOGLEVEL_DEBUG "Start import nodeset: %s" [.str p],
                  .NodesetLoader_importFile p, .NodesetLoader_sort,
                  .log .NODESETLOADER_LOGLEVEL_ERROR
                    "importing the nodeset failed, nodes were not added" []])) ∧
      (∀ r, NodesetLoader_loadFile env fuel server path = .ok r →
        (r.1 = true ↔ importStatus = true ∧ sortStatus = true))) := by
  constructor
  · rintro (h | h)
    · subst h
      simp [NodesetLoader_loadFile]
    · subst h
      cases server <;> simp [NodesetLoader_loadFile]
  · intro s p importStatus sortStatus parsed sorted hs hp himp hsort
    subst hs hp
    have hsucc : importStatus = true ∧ sortStatus = true →
        NodesetLoader_loadFile env fuel (some s) (some p) =
          (addNodes env fuel sorted
            (s ++ [.log .NODESETLOADER_LOGLEVEL_DEBUG "Start import nodeset: %s" [.str p],
                   .NodesetLoader_importFile p, .NodesetLoader_sort])).map
            (fun r => (true, r.2)) := by
      rintro ⟨h1, h2⟩
      subst h1 h2
      simp only [NodesetLoader_loadFile, himp, hsort, Bool.and_self, if_true,
        List.append_assoc, List.singleton_append, List.cons_append, List.nil_append]
      generalize addNodes env fuel sorted
        (s ++ [.log .NODESETLOADER_LOGLEVEL_DEBUG "Start import nodeset: %s" [.str p],
               .NodesetLoader_importFile p, .NodesetLoader_sort]) = x
      cases x with
      | error e => rfl
      | ok r => rfl
    have hfail : ¬ (importStatus = true ∧ sortStatus = true) →
        NodesetLoader_loadFile env fuel (some s) (some p) =
          .ok (false,
            s ++ [.log .NODESETLOADER_LOGLEVEL_DEBUG "Start import nodeset: %s" [.str p],
                  .NodesetLoader_importFile p, .NodesetLoader_sort,
                  .log .NODESETLOADER_LOGLEVEL_ERROR
                    "importing the nodeset failed, nodes were not added" []]) := by
      intro hn
      cases importStatus <;> cases sortStatus <;>
        simp_all [NodesetLoader_loadFile]
    refine ⟨hsucc, hfail, ?_⟩
    intro r hr
    by_cases hc : importStatus = true ∧ sortStatus = true
    · rw [hsucc hc] at hr
      cases ha : addNodes env fuel sorted
        (s ++ [.log .NODESETLOADER_LOGLEVEL_DEBUG "Start import nodeset: %s" [.str p],
               .NodesetLoader_importFile p, .NodesetLoader_sort]) with
      | error e => simp [ha, except_map_error] at hr
      | ok r1 =>
        simp only [ha, except_map_ok] at hr
        cases hr
        simp [hc]
    · rw [hfail hc] at hr
      cases hr
      simp [hc]

/-- Witness of C4: a null server, and a run in which import and sort succeed. -/
theorem loadFile_status_witness :
    NodesetLoader_loadFile (exampleEnv exampleLoader) 5 none (some "nodeset.xml") =
        .ok (false, []) ∧
      NodesetLoader_loadFile (exampleEnv exampleLoader) 5 (some []) (some "nodeset.xml") =
        (addNodes (exampleEnv exampleLoader) 5 exampleLoader
          ([] ++ [.log .NODESETLOADER_LOGLEVEL_DEBUG "Start import nodeset: %s"
                    [.str "nodeset.xml"],
                  .NodesetLoader_importFile "nodeset.xml", .NodesetLoader_sort])).map
          (fun r => (true, r.2)) :=
  ⟨(loadFile_status (exampleEnv exampleLoader) 5 none (some "nodeset.xml")).1 (Or.inl rfl),
   ((loadFile_status (exampleEnv exampleLoader) 5 (some []) (some "nodeset.xml")).2
      [] "nodeset.xml" true true exampleLoader exampleLoader rfl rfl rfl rfl).1 ⟨rfl, rfl⟩⟩

/-! ## import.c: `handleVariableNode` -/

theorem getArrayDimensions_empty (dims : Option (List Nat)) :
    getArrayDimensions "" dims = .ok (0, dims) := by
  simp [getArrayDimensions]

/-- The value part of `handleVariableNode` changes the field `value` only. -/
theorem value_keeps_dimensions (env : Env) (fuel : Nat) (node : TVariableNode)
    (server : History) (attr attr' : UA_VariableAttributes)
    (h : handleVariableNode.value env fuel node server attr = .ok attr') :
    attr'.arrayDimensionsSize = attr.arrayDimensionsSize ∧
      attr'.arrayDimensions = attr.arrayDimensions ∧
      attr'.valueRank = attr.valueRank ∧ attr'.dataType = attr.dataType := by
  unfold handleVariableNode.value at h
  split at h
  · cases h
    simp
  · split at h
    · simp at h
    · simp only at h
      split at h
      · split at h <;> (cases h; simp)
      · cases h
        simp

/-- The attributes `handleVariableNode` starts from when the dimension string is
empty and the value is an array. -/
theorem attributes_empty_dimensions_array (env : Env) (node : TVariableNode)
    (lt description : UA_LocalizedText) (value : Value)
    (hdims : node.arrayDimensions = "") (hval : node.value = some value)
    (harr : value.isArray = true) :
    ∃ attr, handleVariableNode.attributes env node lt description = .ok attr ∧
      attr.dataType = env.getNodeIdFromChars node.datatype ∧
      attr.valueRank = atoi node.valueRank ∧
      attr.arrayDimensionsSize = 1 ∧
      attr.arrayDimensions =
        some [if atoi node.valueRank = 1 then 0 else value.membersSize % 2 ^ 32] := by
  by_cases hvr : atoi node.valueRank = 1
  · simp [handleVariableNode.attributes, hdims, getArrayDimensions_empty, hval, hvr]
  · simp [handleVariableNode.attributes, hdims, getArrayDimensions_empty, hval, hvr, harr]

theorem handleVariableNode_ok (env : Env) (fuel : Nat) (node : TVariableNode)
    (extension : Option String) (id parentId parentReferenceId : UA_NodeId)
    (lt : UA_LocalizedText) (qn : UA_QualifiedName) (description : UA_LocalizedText)
    (server : History) (attr attr' : UA_VariableAttributes) (ref : Reference)
    (ha : handleVariableNode.attributes env node lt description = .ok attr)
    (hv : handleVariableNode.value env fuel node server attr = .ok attr')
    (href : node.refToTypeDef = some ref) :
    handleVariableNode env fuel node extension id parentId parentReferenceId lt qn
        description server =
      .ok (server ++ [.addNode .UA_Server_addNode_begin NODECLASS_VARIABLE id parentId
        parentReferenceId qn (some (env.getNodeIdFromChars ref.target)) (.variable attr')
        extension]) := by
  simp [handleVariableNode, ha, hv, href, typeDefTarget]

theorem value_ok (env : Env) (fuel : Nat) (node : TVariableNode) (server : History)
    (attr : UA_VariableAttributes) (value : Value) (dataType : Option UA_DataType)
    (hval : node.value = some value)
    (hdt : handleVariableNode.dataType env fuel server attr.dataType = .ok dataType) :
    handleVariableNode.value env fuel node server attr =
      .ok (match env.Value_getData value dataType (env.customDataTypes server) with
        | some data =>
          if value.isArray then
            { attr with value := UA_Variant_setArray data.mem value.membersSize dataType }
          else { attr with value := UA_Variant_setScalar data.mem dataType }
        | none => attr) := by
  simp only [handleVariableNode.value, hval, hdt]
  cases env.Value_getData value dataType (env.customDataTypes server) with
  | none => rfl
  | some data => cases value.isArray <;> simp

theorem attributes_ok (env : Env) (node : TVariableNode) (lt description : UA_LocalizedText)
    (d : Nat × Option (List Nat))
    (h : getArrayDimensions node.arrayDimensions none = .ok d) :
    ∃ attr, handleVariableNode.attributes env node lt description = .ok attr ∧
      attr.dataType = env.getNodeIdFromChars node.datatype := by
  simp only [handleVariableNode.attributes, h]
  refine ⟨_, rfl, ?_⟩
  split <;> split <;> (try split) <;> rfl

/-- C5, as stated, fails for value rank 1: the Variable has an empty dimension
string and a literal array of 3 elements, and the one array dimension that
`handleVariableNode` hands to the server is 0, not 3. -/
theorem array_dimension_zero_for_value_rank_one :
    (exampleValueVariableNode "1" exampleArrayValue).arrayDimensions = "" ∧
      (exampleValueVariableNode "1" exampleArrayValue).value =
        some { isArray := true, membersSize := 3, text := "1 13 300" } ∧
      handleVariableNode (exampleEnv exampleLoader) 5
          (exampleValueVariableNode "1" exampleArrayValue) none (UA_NODEID_NUMERIC 1 6004)
          (UA_NODEID_NUMERIC 0 85) (UA_NODEID_NUMERIC 0 35) (UA_LOCALIZEDTEXT "" "v")
          (UA_QUALIFIEDNAME 1 "v") (UA_LOCALIZEDTEXT "" "") [] =
        .ok [.addNode .UA_Server_addNode_begin NODECLASS_VARIABLE
          (UA_NODEID_NUMERIC 1 6004) (UA_NODEID_NUMERIC 0 85) (UA_NODEID_NUMERIC 0 35)
          (UA_QUALIFIEDNAME 1 "v") (some (UA_NODEID_NUMERIC 0 63))
          (.variable
            { displayName := UA_LOCALIZEDTEXT "" "v"
              description := UA_LOCALIZEDTEXT "" ""
              dataType := UA_NODEID_NUMERIC 0 6
              valueRank := 1
              arrayDimensionsSize := 1
              arrayDimensions := some [0]
              accessLevel := 1
              userAccessLevel := 1
              historizing := false
              value := UA_Variant_setArray [8] 3 (some exampleInt32) })
          none] :=
  ⟨rfl, rfl, rfl⟩

/-- C5, amended: for a Variable node whose dimension string is empty and whose
literal value is an array of N elements, `handleVariableNode` (the descriptor
lookup returning and the type definition reference being set) hands exactly one
array dimension to the server; it is N (as a `UA_UInt32`) when the value rank,
the `int` that `atoi` yields, is not 1, and 0 when it is 1. -/
theorem handleVariableNode_array_dimension (env : Env) (fuel : Nat) (node : TVariableNode)
    (extension : Option String) (id parentId parentReferenceId : UA_NodeId)
    (lt : UA_LocalizedText) (qn : UA_QualifiedName) (description : UA_LocalizedText)
    (server : History) (value : Value) (dataType : Option UA_DataType) (ref : Reference)
    (hdims : node.arrayDimensions = "") (hval : node.value = some value)
    (harr : value.isArray = true)
    (hdt : handleVariableNode.dataType env fuel server
      (env.getNodeIdFromChars node.datatype) = .ok dataType)
    (href : node.refToTypeDef = some ref) :
    ∃ attr : UA_VariableAttributes,
      handleVariableNode env fuel node extension id parentId parentReferenceId lt qn
          description server =
        .ok (server ++ [.addNode .UA_Server_addNode_begin NODECLASS_VARIABLE id parentId
          parentReferenceId qn (some (env.getNodeIdFromChars ref.target)) (.variable attr)
          extension]) ∧
      attr.arrayDimensionsSize = 1 ∧
      attr.arrayDimensions =
        some [if atoi node.valueRank = 1 then 0 else value.membersSize % 2 ^ 32] := by
  obtain ⟨attr, ha, hd, _, hsize, hdim⟩ :=
    attributes_empty_dimensions_array env node lt description value hdims hval harr
  rw [← hd] at hdt
  have hv := value_ok env fuel node server attr value dataType hval hdt
  obtain ⟨h1, h2, _, _⟩ := value_keeps_dimensions env fuel node server attr _ hv
  exact ⟨_, handleVariableNode_ok env fuel node extension id parentId parentReferenceId lt qn
    description server attr _ ref ha hv href, h1.trans hsize, h2.trans hdim⟩

/-- Witness of C5 as amended: value rank 0, no dimensions, an array of 3 elements
gives the dimension 3; the value rank text `4294967297`, which `atoi` turns into
the `int` 1, gives the dimension 0. -/
theorem handleVariableNode_array_dimension_witness :
    (exampleValueVariableNode "0" exampleArrayValue).arrayDimensions = "" ∧
      (∃ attr : UA_VariableAttributes,
        handleVariableNode (exampleEnv exampleLoader) 5
            (exampleValueVariableNode "0" exampleArrayValue) none (UA_NODEID_NUMERIC 1 6004)
            (UA_NODEID_NUMERIC 0 85) (UA_NODEID_NUMERIC 0 35) (UA_LOCALIZEDTEXT "" "v")
            (UA_QUALIFIEDNAME 1 "v") (UA_LOCALIZEDTEXT "" "") [] =
          .ok ([] ++ [.addNode .UA_Server_addNode_begin NODECLASS_VARIABLE
            (UA_NODEID_NUMERIC 1 6004) (UA_NODEID_NUMERIC 0 85) (UA_NODEID_NUMERIC 0 35)
            (UA_QUALIFIEDNAME 1 "v") (some (UA_NODEID_NUMERIC 0 63)) (.variable attr) none]) ∧
        attr.arrayDimensionsSize = 1 ∧
        attr.arrayDimensions = some [if atoi "0" = 1 then 0 else 3 % 2 ^ 32]) ∧
      atoi "0" = 0 ∧ atoi "4294967297" = 1 ∧
      ∃ attr : UA_VariableAttributes,
        handleVariableNode (exampleEnv exampleLoader) 5
            (exampleValueVariableNode "4294967297" exampleArrayValue) none
            (UA_NODEID_NUMERIC 1 6004) (UA_NODEID_NUMERIC 0 85) (UA_NODEID_NUMERIC 0 35)
            (UA_LOCALIZEDTEXT "" "v") (UA_QUALIFIEDNAME 1 "v") (UA_LOCALIZEDTEXT "" "") [] =
          .ok ([] ++ [.addNode .UA_Server_addNode_begin NODECLASS_VARIABLE
            (UA_NODEID_NUMERIC 1 6004) (UA_NODEID_NUMERIC 0 85) (UA_NODEID_NUMERIC 0 35)
            (UA_QUALIFIEDNAME 1 "v") (some (UA_NODEID_NUMERIC 0 63)) (.variable attr) none]) ∧
        attr.arrayDimensionsSize = 1 ∧
        attr.arrayDimensions = some [if atoi "4294967297" = 1 then 0 else 3 % 2 ^ 32] :=
  ⟨rfl, handleVariableNode_array_dimension (exampleEnv exampleLoader) 5
    (exampleValueVariableNode "0" exampleArrayValue) none (UA_NODEID_NUMERIC 1 6004)
    (UA_NODEID_NUMERIC 0 85) (UA_NODEID_NUMERIC 0 35) (UA_LOCALIZEDTEXT "" "v")
    (UA_QUALIFIEDNAME 1 "v") (UA_LOCALIZEDTEXT "" "") [] exampleArrayValue (some exampleInt32)
    { isForward := true, refType := exampleId 0 "40", target := exampleId 0 "63" }
    rfl rfl rfl rfl rfl,
   by decide, by decide,
   handleVariableNode_array_dimension (exampleEnv exampleLoader) 5
    (exampleValueVariableNode "4294967297" exampleArrayValue) none (UA_NODEID_NUMERIC 1 6004)
    (UA_NODEID_NUMERIC 0 85) (UA_NODEID_NUMERIC 0 35) (UA_LOCALIZEDTEXT "" "v")
    (UA_QUALIFIEDNAME 1 "v") (UA_LOCALIZEDTEXT "" "") [] exampleArrayValue (some exampleInt32)
    { isForward := true, refType := exampleId 0 "40", target := exampleId 0 "63" }
    rfl rfl rfl rfl rfl⟩

/-- C6, as stated, fails for N = 0: the Variable has a literal array of no elements
that decodes, and the value `handleVariableNode` hands to the server,
`UA_Variant_setArray(mem, 0, type)`, is the very value `UA_Variant_setScalar`
builds from the buffer: array length 0 with data, a scalar. -/
theorem empty_array_handed_over_as_scalar :
    exampleEmptyArrayValue.isArray = true ∧ exampleEmptyArrayValue.membersSize = 0 ∧
      (exampleEnv exampleLoader).Value_getData exampleEmptyArrayValue (some exampleInt32)
        ((exampleEnv exampleLoader).customDataTypes []) = some { mem := [0] } ∧
      handleVariableNode (exampleEnv exampleLoader) 5
          (exampleValueVariableNode "1" exampleEmptyArrayValue) none (UA_NODEID_NUMERIC 1 6007)
          (UA_NODEID_NUMERIC 0 85) (UA_NODEID_NUMERIC 0 35) (UA_LOCALIZEDTEXT "" "v")
          (UA_QUALIFIEDNAME 1 "v") (UA_LOCALIZEDTEXT "" "") [] =
        .ok [.addNode .UA_Server_addNode_begin NODECLASS_VARIABLE
          (UA_NODEID_NUMERIC 1 6007) (UA_NODEID_NUMERIC 0 85) (UA_NODEID_NUMERIC 0 35)
          (UA_QUALIFIEDNAME 1 "v") (some (UA_NODEID_NUMERIC 0 63))
          (.variable
            { displayName := UA_LOCALIZEDTEXT "" "v"
              description := UA_LOCALIZEDTEXT "" ""
              dataType := UA_NODEID_NUMERIC 0 6
              valueRank := 1
              arrayDimensionsSize := 1
              arrayDimensions := some [0]
              accessLevel := 1
              userAccessLevel := 1
              historizing := false
              value := UA_Variant_setArray [0] 0 (some exampleInt32) })
          none] ∧
      UA_Variant_setArray [0] 0 (some exampleInt32) =
        UA_Variant_setScalar [0] (some exampleInt32) ∧
      UA_Variant_isScalar (UA_Variant_setArray [0] 0 (some exampleInt32)) = true :=
  ⟨rfl, rfl, rfl, rfl, rfl, rfl⟩

/-- C6, amended: for a Variable node whose literal value is an array of N elements,
N at least 1, and whose value decodes (`Value_getData` returns a buffer),
`handleVariableNode` hands the server an array value of length N built from that
buffer, not a scalar, as for value rank "1", no array dimensions and a literal
array of 3 elements; when the literal is not an array the value is handed over
as a scalar; for an array of no elements the value handed over is the scalar
built from the buffer. -/
theorem handleVariableNode_value (env : Env) (fuel : Nat) (node : TVariableNode)
    (extension : Option String) (id parentId parentReferenceId : UA_NodeId)
    (lt : UA_LocalizedText) (qn : UA_QualifiedName) (description : UA_LocalizedText)
    (server : History) (dims : Nat × Option (List Nat)) (value : Value)
    (dataType : Option UA_DataType) (data : RawData) (ref : Reference)
    (hdims : getArrayDimensions node.arrayDimensions none = .ok dims)
    (hval : node.value = some value)
    (hdt : handleVariableNode.dataType env fuel server
      (env.getNodeIdFromChars node.datatype) = .ok dataType)
    (hdata : env.Value_getData value dataType (env.customDataTypes server) = some data)
    (href : node.refToTypeDef = some ref) :
    ∃ attr : UA_VariableAttributes,
      handleVariableNode env fuel node extension id parentId parentReferenceId lt qn
          description server =
        .ok (server ++ [.addNode .UA_Server_addNode_begin NODECLASS_VARIABLE id parentId
          parentReferenceId qn (some (env.getNodeIdFromChars ref.target)) (.variable attr)
          extension]) ∧
      (value.isArray = true →
        attr.value = UA_Variant_setArray data.mem value.membersSize dataType ∧
        attr.value.arrayLength = value.membersSize ∧ attr.value.data = some data.mem ∧
        attr.value.type = dataType) ∧
      (value.isArray = true → 1 ≤ value.membersSize →
        UA_Variant_isScalar attr.value = false) ∧
      (value.isArray = true → value.membersSize = 0 →
        attr.value = UA_Variant_setScalar data.mem dataType ∧
        UA_Variant_isScalar attr.value = true) ∧
      (value.isArray = false →
        attr.value = UA_Variant_setScalar data.mem dataType ∧
        UA_Variant_isScalar attr.value = true) := by
  obtain ⟨attr, ha, hd⟩ := attributes_ok env node lt description dims hdims
  rw [← hd] at hdt
  have hv := value_ok env fuel node server attr value dataType hval hdt
  rw [hdata] at hv
  refine ⟨_, handleVariableNode_ok env fuel node extension id parentId parentReferenceId lt
    qn description server attr _ ref ha hv href, ?_, ?_, ?_, ?_⟩
  · intro harr
    simp [harr, UA_Variant_setArray]
  · intro harr hpos
    have hne : value.membersSize ≠ 0 := by omega
    simp [harr, UA_Variant_setArray, UA_Variant_isScalar, hne]
  · intro harr hzero
    simp [harr, hzero, UA_Variant_setArray, UA_Variant_setScalar, UA_Variant_isScalar]
  · intro hsc
    simp [hsc, UA_Variant_setScalar, UA_Variant_isScalar]

/-- Witness of C6 as amended: value rank 1, no dimensions, an array of 3 elements. -/
theorem handleVariableNode_value_witness :
    getArrayDimensions (exampleValueVariableNode "1" exampleArrayValue).arrayDimensions none =
        .ok (0, none) ∧
      (exampleValueVariableNode "1" exampleArrayValue).valueRank = "1" ∧
      exampleArrayValue.isArray = true ∧ exampleArrayValue.membersSize = 3 ∧
      ∃ attr : UA_VariableAttributes,
        handleVariableNode (exampleEnv exampleLoader) 5
            (exampleValueVariableNode "1" exampleArrayValue) none (UA_NODEID_NUMERIC 1 6004)
            (UA_NODEID_NUMERIC 0 85) (UA_NODEID_NUMERIC 0 35) (UA_LOCALIZEDTEXT "" "v")
            (UA_QUALIFIEDNAME 1 "v") (UA_LOCALIZEDTEXT "" "") [] =
          .ok ([] ++ [.addNode .UA_Server_addNode_begin NODECLASS_VARIABLE
            (UA_NODEID_NUMERIC 1 6004) (UA_NODEID_NUMERIC 0 85) (UA_NODEID_NUMERIC 0 35)
            (UA_QUALIFIEDNAME 1 "v") (some (UA_NODEID_NUMERIC 0 63)) (.variable attr) none]) ∧
        (exampleArrayValue.isArray = true →
          attr.value = UA_Variant_setArray [8] 3 (some exampleInt32) ∧
          attr.value.arrayLength = 3 ∧ attr.value.data = some [8] ∧
          attr.value.type = some exampleInt32) ∧
        (exampleArrayValue.isArray = true → 1 ≤ 3 →
          UA_Variant_isScalar attr.value = false) ∧
        (exampleArrayValue.isArray = true → 3 = 0 →
          attr.value = UA_Variant_setScalar [8] (some exampleInt32) ∧
          UA_Variant_isScalar attr.value = true) ∧
        (exampleArrayValue.isArray = false →
          attr.value = UA_Variant_setScalar [8] (some exampleInt32) ∧
          UA_Variant_isScalar attr.value = true) :=
  ⟨rfl, rfl, rfl, rfl, handleVariableNode_value (exampleEnv exampleLoader) 5
    (exampleValueVariableNode "1" exampleArrayValue) none (UA_NODEID_NUMERIC 1 6004)
    (UA_NODEID_NUMERIC 0 85) (UA_NODEID_NUMERIC 0 35) (UA_LOCALIZEDTEXT "" "v")
    (UA_QUALIFIEDNAME 1 "v") (UA_LOCALIZEDTEXT "" "") [] (0, none) exampleArrayValue
    (some exampleInt32) { mem := [8] }
    { isForward := true, refType := exampleId 0 "40", target := exampleId 0 "63" }
    rfl rfl rfl rfl rfl⟩

/-- C7, as stated, fails: the Variable has value rank 1, an empty dimension string
and a scalar literal that decodes, and `handleVariableNode` hands the value over
as a scalar (array length 0), not as an array of one element; the one array
dimension is 0. -/
theorem scalar_stays_scalar_for_value_rank_one :
    (exampleValueVariableNode "1" exampleScalarValue).arrayDimensions = "" ∧
      (exampleValueVariableNode "1" exampleScalarValue).value =
        some { isArray := false, membersSize := 0, text := "1" } ∧
      handleVariableNode (exampleEnv exampleLoader) 5
          (exampleValueVariableNode "1" exampleScalarValue) none (UA_NODEID_NUMERIC 1 6006)
          (UA_NODEID_NUMERIC 0 85) (UA_NODEID_NUMERIC 0 35) (UA_LOCALIZEDTEXT "" "v")
          (UA_QUALIFIEDNAME 1 "v") (UA_LOCALIZEDTEXT "" "") [] =
        .ok [.addNode .UA_Server_addNode_begin NODECLASS_VARIABLE
          (UA_NODEID_NUMERIC 1 6006) (UA_NODEID_NUMERIC 0 85) (UA_NODEID_NUMERIC 0 35)
          (UA_QUALIFIEDNAME 1 "v") (some (UA_NODEID_NUMERIC 0 63))
          (.variable
            { displayName := UA_LOCALIZEDTEXT "" "v"
              description := UA_LOCALIZEDTEXT "" ""
              dataType := UA_NODEID_NUMERIC 0 6
              valueRank := 1
              arrayDimensionsSize := 1
              arrayDimensions := some [0]
              accessLevel := 1
              userAccessLevel := 1
              historizing := false
              value := UA_Variant_setScalar [1] (some exampleInt32) })
          none] ∧
      UA_Variant_isScalar (UA_Variant_setScalar [1] (some exampleInt32)) = true ∧
      (UA_Variant_setScalar [1] (some exampleInt32)).arrayLength = 0 ∧
      UA_Variant_setScalar [1] (some exampleInt32) ≠
        UA_Variant_setArray [1] 1 (some exampleInt32) :=
  ⟨rfl, rfl, rfl, rfl, rfl, by decide⟩

/-- C7, amended: for a Variable node with value rank 1, an empty dimension string and
a scalar literal value that decodes, `handleVariableNode` hands the value to the
server as a scalar, and records exactly one array dimension whose value is 0. -/
theorem handleVariableNode_scalar_value_rank_one (env : Env) (fuel : Nat)
    (node : TVariableNode) (extension : Option String)
    (id parentId parentReferenceId : UA_NodeId) (lt : UA_LocalizedText)
    (qn : UA_QualifiedName) (description : UA_LocalizedText) (server : History)
    (value : Value) (dataType : Option UA_DataType) (data : RawData) (ref : Reference)
    (hrank : atoi node.valueRank = 1) (hdims : node.arrayDimensions = "")
    (hval : node.value = some value) (hscalar : value.isArray = false)
    (hdt : handleVariableNode.dataType env fuel server
      (env.getNodeIdFromChars node.datatype) = .ok dataType)
    (hdata : env.Value_getData value dataType (env.customDataTypes server) = some data)
    (href : node.refToTypeDef = some ref) :
    ∃ attr : UA_VariableAttributes,
      handleVariableNode env fuel node extension id parentId parentReferenceId lt qn
          description server =
        .ok (server ++ [.addNode .UA_Server_addNode_begin NODECLASS_VARIABLE id parentId
          parentReferenceId qn (some (env.getNodeIdFromChars ref.target)) (.variable attr)
          extension]) ∧
      attr.value = UA_Variant_setScalar data.mem dataType ∧
      UA_Variant_isScalar attr.value = true ∧
      attr.valueRank = 1 ∧
      attr.arrayDimensionsSize = 1 ∧ attr.arrayDimensions = some [0] := by
  have ha : ∃ attr, handleVariableNode.attributes env node lt description = .ok attr ∧
      attr.dataType = env.getNodeIdFromChars node.datatype ∧ attr.valueRank = 1 ∧
      attr.arrayDimensionsSize = 1 ∧ attr.arrayDimensions = some [0] := by
    simp [handleVariableNode.attributes, hdims, getArrayDimensions_empty, hval, hrank]
  obtain ⟨attr, ha, hd, hr, hsize, hdim⟩ := ha
  rw [← hd] at hdt
  have hv := value_ok env fuel node server attr value dataType hval hdt
  rw [hdata] at hv
  obtain ⟨h1, h2, h3, _⟩ := value_keeps_dimensions env fuel node server attr _ hv
  refine ⟨_, handleVariableNode_ok env fuel node extension id parentId parentReferenceId lt
    qn description server attr _ ref ha hv href, ?_, ?_, h3.trans hr, h1.trans hsize,
    h2.trans hdim⟩
  · simp [hscalar]
  · simp [hscalar, UA_Variant_setScalar, UA_Variant_isScalar]

/-- Witness of C7 as amended: value rank 1, no dimensions, a scalar literal. -/
theorem handleVariableNode_scalar_value_rank_one_witness :
    atoi (exampleValueVariableNode "1" exampleScalarValue).valueRank = 1 ∧
      (exampleValueVariableNode "1" exampleScalarValue).arrayDimensions = "" ∧
      exampleScalarValue.isArray = false ∧
      ∃ attr : UA_VariableAttributes,
        handleVariableNode (exampleEnv exampleLoader) 5
            (exampleValueVariableNode "1" exampleScalarValue) none (UA_NODEID_NUMERIC 1 6006)
            (UA_NODEID_NUMERIC 0 85) (UA_NODEID_NUMERIC 0 35) (UA_LOCALIZEDTEXT "" "v")
            (UA_QUALIFIEDNAME 1 "v") (UA_LOCALIZEDTEXT "" "") [] =
          .ok ([] ++ [.addNode .UA_Server_addNode_begin NODECLASS_VARIABLE
            (UA_NODEID_NUMERIC 1 6006) (UA_NODEID_NUMERIC 0 85) (UA_NODEID_NUMERIC 0 35)
            (UA_QUALIFIEDNAME 1 "v") (some (UA_NODEID_NUMERIC 0 63)) (.variable attr) none]) ∧
        attr.value = UA_Variant_setScalar [1] (some exampleInt32) ∧
        UA_Variant_isScalar attr.value = true ∧
        attr.valueRank = 1 ∧
        attr.arrayDimensionsSize = 1 ∧ attr.arrayDimensions = some [0] :=
  ⟨rfl, rfl, rfl, handleVariableNode_scalar_value_rank_one (exampleEnv exampleLoader) 5
    (exampleValueVariableNode "1" exampleScalarValue) none (UA_NODEID_NUMERIC 1 6006)
    (UA_NODEID_NUMERIC 0 85) (UA_NODEID_NUMERIC 0 35) (UA_LOCALIZEDTEXT "" "v")
    (UA_QUALIFIEDNAME 1 "v") (UA_LOCALIZEDTEXT "" "") [] exampleScalarValue
    (some exampleInt32) { mem := [1] }
    { isForward := true, refType := exampleId 0 "40", target := exampleId 0 "63" }
    rfl rfl rfl rfl rfl rfl rfl⟩

/-! ## import.c: `addDataType` -/

theorem TNodeId_cmp_eq_zero (a b : TNodeId) : TNodeId_cmp a b = 0 ↔ a = b := by
  obtain ⟨ans, aid⟩ := a
  obtain ⟨bns, bid⟩ := b
  unfold TNodeId_cmp
  simp only [TNodeId.mk.injEq]
  by_cases h1 : ans = bns
  · by_cases h2 : aid = bid
    · simp [h1, h2]
    · simp only [h1, h2, if_true, if_false, and_false, true_and, iff_false]
      split <;> decide
  · simp only [h1, if_false, false_and, iff_false]
    split <;> decide

/-- The loop of `addDataType` attaches the first triple whose source is the node, and
that one only. -/
theorem addDataType_loop_eq (node : TNode) (refs : List BiDirectionalReference) :
    addDataType.loop node refs =
      match refs.find? (fun r => decide (r.source = node.id)) with
      | some r =>
        { node with
          nonHierachicalRefs :=
            { isForward := false, refType := r.refType, target := r.target } ::
              node.nonHierachicalRefs }
      | none => node := by
  induction refs with
  | nil => rfl
  | cons r next ih =>
    simp only [addDataType.loop, List.find?_cons]
    by_cases h : r.source = node.id
    · simp [h, (TNodeId_cmp_eq_zero _ _).2]
    · have h' : ¬ TNodeId_cmp r.source node.id = 0 := fun hc => h ((TNodeId_cmp_eq_zero _ _).1 hc)
      simp only [h', if_false, h, decide_False]
      exact ih

theorem addDataType_loop_id (node : TNode) (refs : List BiDirectionalReference) :
    (addDataType.loop node refs).id = node.id := by
  rw [addDataType_loop_eq]
  split <;> rfl

theorem addDataType_ok (env : Env) (fuel : Nat) (ctx : DataTypeImportCtx) (node : TNode)
    (parent : UA_NodeId)
    (hparent : getParentType env ctx.server fuel (env.getNodeIdFromChars node.id) =
      .ok parent) :
    addDataType env fuel ctx node =
      .ok ({ ctx with
             server := ctx.server ++
               [.DataTypeImporter_addCustomDataType (addDataType.loop node ctx.hasEncodingRef)
                 parent] },
           addDataType.loop node ctx.hasEncodingRef) := by
  simp [addDataType, addDataType_loop_id, hparent]

/-- C8, as stated, fails: two has-encoding triples have the DataType `ns=1;i=20` as
their source, and after `addDataType` the node's non-hierarchical references hold
the first of them only; the target `ns=1;i=23` of the second is not attached. -/
theorem second_encoding_not_attached :
    (∀ r ∈ exampleEncodings, r.source = (exampleDataType "20" "22").id) ∧
      (addDataType (exampleEnv exampleLoader) 5
          { hasEncodingRef := exampleEncodings, server := [] }
          (exampleDataType "20" "22")).map (fun r => r.2.nonHierachicalRefs) =
        .ok [{ isForward := false, refType := exampleId 0 "38", target := exampleId 1 "21" }] ∧
      ¬ ∃ ref ∈ [({ isForward := false, refType := exampleId 0 "38",
                    target := exampleId 1 "21" } : Reference)],
        ref.target = exampleId 1 "23" :=
  ⟨by decide, rfl, by decide⟩

/-- C8, amended: `addDataType` (the walk to the known parent type returning) leaves
the DataType node with its non-hierarchical references as before and, in front
of them, one new reference that carries the reference type and target of the
first has-encoding triple whose source equals the node's identifier; when no
triple matches, the list is unchanged. -/
theorem addDataType_attaches_first_encoding (env : Env) (fuel : Nat)
    (ctx : DataTypeImportCtx) (node : TNode) (parent : UA_NodeId)
    (hparent : getParentType env ctx.server fuel (env.getNodeIdFromChars node.id) =
      .ok parent) :
    ∃ node' : TNode,
      addDataType env fuel ctx node =
        .ok ({ ctx with
               server := ctx.server ++ [.DataTypeImporter_addCustomDataType node' parent] },
             node') ∧
      node'.id = node.id ∧
      node'.nonHierachicalRefs =
        match ctx.hasEncodingRef.find? (fun r => decide (r.source = node.id)) with
        | some r =>
          { isForward := false, refType := r.refType, target := r.target } ::
            node.nonHierachicalRefs
        | none => node.nonHierachicalRefs := by
  refine ⟨addDataType.loop node ctx.hasEncodingRef,
    addDataType_ok env fuel ctx node parent hparent, addDataType_loop_id node _, ?_⟩
  rw [addDataType_loop_eq]
  split <;> rfl

/-- Witness of C8 as amended: the DataType `ns=1;i=20` with its two encodings. -/
theorem addDataType_attaches_first_encoding_witness :
    getParentType (exampleEnv exampleLoader) [] 5
        ((exampleEnv exampleLoader).getNodeIdFromChars (exampleDataType "20" "22").id) =
        .ok UA_NODEID_NULL ∧
      ∃ node' : TNode,
        addDataType (exampleEnv exampleLoader) 5
            { hasEncodingRef := exampleEncodings, server := [] }
            (exampleDataType "20" "22") =
          .ok ({ hasEncodingRef := exampleEncodings,
                 server := [] ++
                   [.DataTypeImporter_addCustomDataType node' UA_NODEID_NULL] }, node') ∧
        node'.id = (exampleDataType "20" "22").id ∧
        node'.nonHierachicalRefs =
          match exampleEncodings.find?
              (fun r => decide (r.source = (exampleDataType "20" "22").id)) with
          | some r =>
            { isForward := false, refType := r.refType, target := r.target } ::
              (exampleDataType "20" "22").nonHierachicalRefs
          | none => (exampleDataType "20" "22").nonHierachicalRefs :=
  ⟨rfl, addDataType_attaches_first_encoding (exampleEnv exampleLoader) 5
    { hasEncodingRef := exampleEncodings, server := [] } (exampleDataType "20" "22")
    UA_NODEID_NULL rfl⟩

/-! ## import.c: `addNodes` returns -/

theorem getParentType_exampleEnv (loader : Loader) : (exampleEnv loader).FuelSuffices 5 := by
  intro server id
  by_cases h : isKnownParent id = true
  · exact ⟨id, by simp [getParentType, h]⟩
  · refine ⟨UA_NODEID_NULL, ?_⟩
    have hn : isKnownParent UA_NODEID_NULL = true := by decide
    have hp : getParentDataType (exampleEnv loader) server id = UA_NODEID_NULL := by
      simp [getParentDataType, exampleEnv]
    simp [getParentType, h, hp, hn]

theorem dataType_returns (env : Env) (fuel : Nat) (hfuel : env.FuelSuffices fuel)
    (server : History) (id : UA_NodeId) :
    ∃ dataType, handleVariableNode.dataType env fuel server id = .ok dataType := by
  unfold handleVariableNode.dataType
  cases env.UA_findDataType id with
  | some dt => exact ⟨_, rfl⟩
  | none =>
    cases env.NodesetLoader_getCustomDataType server id with
    | some dt => exact ⟨_, rfl⟩
    | none =>
      obtain ⟨parent, hp⟩ := hfuel server id
      simp only [hp]
      exact ⟨_, rfl⟩

theorem value_returns (env : Env) (fuel : Nat) (hfuel : env.FuelSuffices fuel)
    (node : TVariableNode) (server : History) (attr : UA_VariableAttributes) :
    ∃ attr', handleVariableNode.value env fuel node server attr = .ok attr' := by
  cases hval : node.value with
  | none => exact ⟨attr, by simp [handleVariableNode.value, hval]⟩
  | some value =>
    obtain ⟨dataType, hdt⟩ := dataType_returns env fuel hfuel server attr.dataType
    exact ⟨_, value_ok env fuel node server attr value dataType hval hdt⟩

theorem getArrayDimensions_returns (s : String) (dims : Option (List Nat))
    (h : strchr s.toList (Char.ofNat 59) = none) :
    ∃ d, getArrayDimensions s dims = .ok d := by
  unfold getArrayDimensions
  by_cases hl : 0 = s.length
  · simp only [hl, if_true]
    exact ⟨_, rfl⟩
  · simp only [hl, if_false, h]
    exact ⟨_, rfl⟩

/-- The function `addNode` returns for every node within defined behaviour, given
enough fuel. -/
theorem addNode_returns (env : Env) (fuel : Nat) (hfuel : env.FuelSuffices fuel)
    (node : TNode) (hd : node.Defined) (server : History) :
    ∃ server', addNode env fuel server node = .ok server' := by
  unfold TNode.Defined at hd
  unfold addNode
  cases hk : node.kind with
  | objectNode n =>
    simp only [hk] at hd
    obtain ⟨ref, href⟩ := Option.isSome_iff_exists.1 hd
    simp only [handleObjectNode, href, typeDefTarget]
    exact ⟨_, rfl⟩
  | variableNode n =>
    simp only [hk, Bool.and_eq_true, Option.isNone_iff_eq_none] at hd
    obtain ⟨ref, href⟩ := Option.isSome_iff_exists.1 hd.1
    obtain ⟨d, hdims⟩ := getArrayDimensions_returns n.arrayDimensions none hd.2
    obtain ⟨attr, ha, _⟩ := attributes_ok env n
      (UA_LOCALIZEDTEXT node.displayName.locale node.displayName.text)
      (UA_LOCALIZEDTEXT node.description.locale node.description.text) d hdims
    obtain ⟨attr', hv⟩ := value_returns env fuel hfuel n server attr
    exact ⟨_, handleVariableNode_ok env fuel n _ _ _ _ _ _ _ server attr attr' ref ha hv href⟩
  | methodNode n => exact ⟨_, rfl⟩
  | objectTypeNode n => exact ⟨_, rfl⟩
  | variableTypeNode n => exact ⟨_, rfl⟩
  | referenceTypeNode n => exact ⟨_, rfl⟩
  | dataTypeNode n => exact ⟨_, rfl⟩
  | viewNode n => exact ⟨_, rfl⟩

theorem forEach_addNode_returns (env : Env) (fuel : Nat) (hfuel : env.FuelSuffices fuel)
    (nodes : List TNode) (hd : ∀ node ∈ nodes, node.Defined) (server : History) :
    ∃ r, forEachNode.loop
      (fun server node => (addNode env fuel server node).map (fun server => (server, node)))
      nodes server = .ok r := by
  induction nodes generalizing server with
  | nil => exact ⟨_, rfl⟩
  | cons node rest ih =>
    obtain ⟨server1, h1⟩ := addNode_returns env fuel hfuel node
      (hd node (List.mem_cons_self _ _)) server
    obtain ⟨r, hr⟩ := ih (fun n hn => hd n (List.mem_cons_of_mem _ hn)) server1
    simp only [forEachNode.loop, h1, except_map_ok, hr]
    exact ⟨_, rfl⟩

theorem addDataType_loop_kind (node : TNode) (refs : List BiDirectionalReference) :
    (addDataType.loop node refs).kind = node.kind := by
  rw [addDataType_loop_eq]
  split <;> rfl

theorem forEach_addDataType_returns (env : Env) (fuel : Nat) (hfuel : env.FuelSuffices fuel)
    (nodes : List TNode) (hd : ∀ node ∈ nodes, node.Defined) (ctx : DataTypeImportCtx) :
    ∃ r, forEachNode.loop (addDataType env fuel) nodes ctx = .ok r ∧
      ∀ node ∈ r.1, node.Defined := by
  induction nodes generalizing ctx with
  | nil => exact ⟨_, rfl, by simp⟩
  | cons node rest ih =>
    obtain ⟨parent, hp⟩ := hfuel ctx.server (env.getNodeIdFromChars node.id)
    have h1 := addDataType_ok env fuel ctx node parent hp
    obtain ⟨r, hr, hdr⟩ := ih (fun n hn => hd n (List.mem_cons_of_mem _ hn))
      { ctx with
        server := ctx.server ++
          [.DataTypeImporter_addCustomDataType (addDataType.loop node ctx.hasEncodingRef)
            parent] }
    simp only [forEachNode.loop, h1, hr]
    refine ⟨_, rfl, ?_⟩
    intro n hn
    simp only [List.mem_cons] at hn
    rcases hn with rfl | hn
    · have := hd node (List.mem_cons_self _ _)
      unfold TNode.Defined at this ⊢
      rw [addDataType_loop_kind]
      exact this
    · exact hdr n hn

theorem importDataTypes_returns (env : Env) (fuel : Nat) (hfuel : env.FuelSuffices fuel)
    (loader : Loader) (hd : ∀ c, ∀ node ∈ loader.nodes c, node.Defined) (server : History) :
    ∃ r, importDataTypes env fuel loader server = .ok r ∧
      ∀ c, ∀ node ∈ r.1.nodes c, node.Defined := by
  obtain ⟨r1, h1, hd1⟩ := forEach_addDataType_returns env fuel hfuel
    (loader.nodes NODECLASS_DATATYPE) (hd NODECLASS_DATATYPE)
    { hasEncodingRef := NodesetLoader_getBidirectionalRefs loader,
      server := server ++ [ServerCall.DataTypeImporter_new] }
  simp only [importDataTypes, NodesetLoader_forEachNode, h1]
  refine ⟨_, rfl, ?_⟩
  intro c node hnode
  by_cases hc : c = NODECLASS_DATATYPE
  · subst hc
    simp only [Function.update_same] at hnode
    exact hd1 node hnode
  · simp only [Function.update_noteq hc] at hnode
    exact hd c node hnode

theorem createLoop_returns (env : Env) (fuel : Nat) (hfuel : env.FuelSuffices fuel)
    (classes : List TNodeClass) (loader : Loader)
    (hd : ∀ c, ∀ node ∈ loader.nodes c, node.Defined) (server : History) :
    ∃ r, addNodes.createLoop env fuel classes loader server = .ok r := by
  induction classes generalizing loader server with
  | nil => exact ⟨_, rfl⟩
  | cons cls rest ih =>
    obtain ⟨r1, h1⟩ := forEach_addNode_returns env fuel hfuel (loader.nodes cls) (hd cls) server
    obtain ⟨h2, _⟩ := forEach_addNode_emitted env fuel _ _ r1 h1
    simp only [addNodes.createLoop, NodesetLoader_forEachNode, h1, h2, Function.update_eq_self]
    by_cases hc : cls = NODECLASS_DATATYPE
    · obtain ⟨r2, h3, hd2⟩ := importDataTypes_returns env fuel hfuel loader hd r1.2
      simp only [hc, if_true, h3]
      exact ih r2.1 hd2 _
    · simp only [hc, if_false]
      exact ih loader hd _

theorem forEach_addRefs_returns (env : Env) (nodes : List TNode) (server : History) :
    ∃ r, forEachNode.loop
      (fun server node => Except.ok (addNonHierachicalRefs env server node, node))
      nodes server = .ok r := by
  induction nodes generalizing server with
  | nil => exact ⟨_, rfl⟩
  | cons node rest ih =>
    obtain ⟨r, hr⟩ := ih (addNonHierachicalRefs env server node)
    simp only [forEachNode.loop, hr]
    exact ⟨_, rfl⟩

theorem referenceLoop_returns (env : Env) (classes : List TNodeClass) (loader : Loader)
    (server : History) : ∃ r, addNodes.referenceLoop env classes loader server = .ok r := by
  induction classes generalizing loader server with
  | nil => exact ⟨_, rfl⟩
  | cons cls rest ih =>
    obtain ⟨r1, h1⟩ := forEach_addRefs_returns env (loader.nodes cls) server
    simp only [addNodes.referenceLoop, NodesetLoader_forEachNode, h1]
    exact ih _ _

/-- With enough fuel `addNodes` returns on every nodeset whose nodes are within
defined behaviour. -/
theorem addNodes_returns (env : Env) (fuel : Nat) (hfuel : env.FuelSuffices fuel)
    (loader : Loader) (hd : ∀ c, ∀ node ∈ loader.nodes c, node.Defined) (server : History) :
    ∃ r, addNodes env fuel loader server = .ok r := by
  obtain ⟨r1, h1⟩ := createLoop_returns env fuel hfuel order loader hd server
  obtain ⟨r2, h2⟩ := referenceLoop_returns env order r1.1 r1.2
  exact ⟨r2, by simp only [addNodes, h1, h2]⟩

/-! ## import.c: the classes are created in the order of `order` -/

theorem order_ranks : order.Pairwise (fun c₁ c₂ => classRank c₁ < classRank c₂) := by
  decide

theorem exampleLoader_classesMatch : exampleLoader.ClassesMatch := by
  intro c
  cases c <;> decide

theorem exampleLoader_defined : ∀ c, ∀ node ∈ exampleLoader.nodes c, node.Defined := by
  intro c
  cases c <;> decide

theorem exampleLoader_sorted (c : TNodeClass) :
    DependenciesFirst ((exampleLoader.nodes c).map (emission (exampleEnv exampleLoader))) := by
  cases c <;> decide

/-- C1: `addNodes` creates the node classes in the fixed order ReferenceType, DataType,
ObjectType, Object, Method, VariableType, Variable, View: the array `order` holds
each of the eight classes exactly once; whenever `addNodes` returns, the nodes it
added are the containers of these classes one after the other, so that every
node of a class is added before any node of a class that comes later in the
list, whatever references the nodes carry; and it returns, given enough fuel,
on every nodeset within defined behaviour. -/
theorem addNodes_class_order (env : Env) (fuel : Nat) (loader : Loader) (server : History)
    (hwf : loader.ClassesMatch) :
    order = [NODECLASS_REFERENCETYPE, NODECLASS_DATATYPE, NODECLASS_OBJECTTYPE,
        NODECLASS_OBJECT, NODECLASS_METHOD, NODECLASS_VARIABLETYPE, NODECLASS_VARIABLE,
        NODECLASS_VIEW] ∧
      order.length = NODECLASS_COUNT ∧ order.Nodup ∧ (∀ c : TNodeClass, c ∈ order) ∧
      (∀ r, addNodes env fuel loader server = .ok r →
        emitted r.2 =
          emitted server ++ order.flatMap (fun c => (loader.nodes c).map (emission env)) ∧
        ∀ i j : Fin (emittedSince server r.2).length,
          classRank ((emittedSince server r.2).get i).nodeClass <
            classRank ((emittedSince server r.2).get j).nodeClass → i < j) ∧
      (env.FuelSuffices fuel → (∀ c, ∀ node ∈ loader.nodes c, node.Defined) →
        ∃ r, addNodes env fuel loader server = .ok r) := by
  refine ⟨rfl, rfl, by decide, ?_, ?_, ?_⟩
  · intro c
    cases c <;> decide
  · intro r h
    refine ⟨addNodes_emitted env fuel loader server r h, ?_⟩
    apply index_lt_of_pairwise
      (fun a b : Emitted => classRank a.nodeClass < classRank b.nodeClass)
    · rw [emittedSince_addNodes env fuel loader server r h, List.pairwise_flatMap]
      constructor
      · intro c _
        apply List.pairwise_of_forall_mem_list
        intro a ha b hb
        rw [emission_class_of_mem env loader hwf c a ha,
          emission_class_of_mem env loader hwf c b hb]
        exact lt_irrefl _
      · apply List.Pairwise.imp _ order_ranks
        intro c₁ c₂ hlt x hx y hy
        rw [emission_class_of_mem env loader hwf c₁ x hx,
          emission_class_of_mem env loader hwf c₂ y hy]
        omega
    · intro a _
      exact lt_irrefl _
  · intro hfuel hd
    exact addNodes_returns env fuel hfuel loader hd server

/-- Witness of C1: the example nodeset with one Object and two Variables. -/
theorem addNodes_class_order_witness :
    exampleLoader.ClassesMatch ∧
      addNodes (exampleEnv exampleLoader) 5 exampleLoader [] = .ok exampleRun ∧
      (emittedSince [] exampleRun.2).map (fun e => e.nodeClass) =
        [NODECLASS_OBJECT, NODECLASS_VARIABLE, NODECLASS_VARIABLE] ∧
      (∀ i j : Fin (emittedSince [] exampleRun.2).length,
        classRank ((emittedSince [] exampleRun.2).get i).nodeClass <
          classRank ((emittedSince [] exampleRun.2).get j).nodeClass → i < j) ∧
      (exampleEnv exampleLoader).FuelSuffices 5 ∧
      (∀ c, ∀ node ∈ exampleLoader.nodes c, node.Defined) ∧
      ∃ r, addNodes (exampleEnv exampleLoader) 5 exampleLoader [] = .ok r :=
  ⟨exampleLoader_classesMatch, rfl, by decide,
   ((addNodes_class_order (exampleEnv exampleLoader) 5 exampleLoader []
      exampleLoader_classesMatch).2.2.2.2.1 exampleRun rfl).2,
   getParentType_exampleEnv exampleLoader, exampleLoader_defined,
   (addNodes_class_order (exampleEnv exampleLoader) 5 exampleLoader []
      exampleLoader_classesMatch).2.2.2.2.2 (getParentType_exampleEnv exampleLoader)
      exampleLoader_defined⟩

/-! ## import.c: dependencies and the order of creation -/

/-- C2, as stated, fails: in the example nodeset every container is in topological
order, and `addNodes` adds the Object `ns=1;i=1` before the Variable `ns=1;i=2`
that `getParentId` names as its parent. -/
theorem object_added_before_its_variable_parent :
    (∀ c, DependenciesFirst
        ((exampleLoader.nodes c).map (emission (exampleEnv exampleLoader)))) ∧
      addNodes (exampleEnv exampleLoader) 5 exampleLoader [] = .ok exampleRun ∧
      (getParentId (exampleEnv exampleLoader) exampleObject).1 =
        (exampleEnv exampleLoader).getNodeIdFromChars exampleVariable.id ∧
      emittedSince [] exampleRun.2 =
        [emission (exampleEnv exampleLoader) exampleObject,
         emission (exampleEnv exampleLoader) exampleVariable,
         emission (exampleEnv exampleLoader) exampleChildVariable] ∧
      ¬ DependenciesFirst (emittedSince [] exampleRun.2) :=
  ⟨exampleLoader_sorted, rfl, by decide, by decide, by decide⟩

/-- C2, amended: when every container holds nodes of its class and is in topological
order, then in the sequence of nodes that `addNodes` adds (whenever it returns,
and it returns given enough fuel on a nodeset within defined behaviour), the
parent that `getParentId` names and the type definition target of a node are
added strictly before the node when they are nodes of the nodeset of the same
class or of a class earlier in `order`. -/
theorem addNodes_earlier_dependencies_first (env : Env) (fuel : Nat) (loader : Loader)
    (server : History) (hwf : loader.ClassesMatch)
    (htopo : ∀ c, DependenciesFirst ((loader.nodes c).map (emission env))) :
    (∀ r, addNodes env fuel loader server = .ok r →
      EarlierDependenciesFirst (emittedSince server r.2)) ∧
    (env.FuelSuffices fuel → (∀ c, ∀ node ∈ loader.nodes c, node.Defined) →
      ∃ r, addNodes env fuel loader server = .ok r ∧
        EarlierDependenciesFirst (emittedSince server r.2)) := by
  have main : ∀ r, addNodes env fuel loader server = .ok r →
      EarlierDependenciesFirst (emittedSince server r.2) := by
    intro r h
    have key := index_lt_of_pairwise
      (fun a b : Emitted => IsDependency a b ∧ classRank a.nodeClass ≤ classRank b.nodeClass)
      (emittedSince server r.2) ?_ ?_
    · intro i j hd hr
      exact key i j ⟨hd, hr⟩
    · rw [emittedSince_addNodes env fuel loader server r h, List.pairwise_flatMap]
      constructor
      · intro c _
        apply List.Pairwise.imp _ (pairwise_of_index_lt IsDependency _ (htopo c)).1
        intro a b hn hd
        exact hn hd.1
      · apply List.Pairwise.imp _ order_ranks
        intro c₁ c₂ hlt x hx y hy hd
        have hrank := hd.2
        rw [emission_class_of_mem env loader hwf c₁ x hx,
          emission_class_of_mem env loader hwf c₂ y hy] at hrank
        omega
    · intro a ha hd
      rw [emittedSince_addNodes env fuel loader server r h, List.mem_flatMap] at ha
      obtain ⟨c, _, hc⟩ := ha
      exact (pairwise_of_index_lt IsDependency _ (htopo c)).2 a hc hd.1
  refine ⟨main, ?_⟩
  intro hfuel hd
  obtain ⟨r, hr⟩ := addNodes_returns env fuel hfuel loader hd server
  exact ⟨r, hr, main r hr⟩

/-- Witness of C2 as amended: the example nodeset, in which the Variable `ns=1;i=3` is
added after the Object `ns=1;i=1` that is its parent. -/
theorem addNodes_earlier_dependencies_first_witness :
    exampleLoader.ClassesMatch ∧
      (∀ c, DependenciesFirst
        ((exampleLoader.nodes c).map (emission (exampleEnv exampleLoader)))) ∧
      addNodes (exampleEnv exampleLoader) 5 exampleLoader [] = .ok exampleRun ∧
      EarlierDependenciesFirst (emittedSince [] exampleRun.2) :=
  ⟨exampleLoader_classesMatch, exampleLoader_sorted, rfl,
   (addNodes_earlier_dependencies_first (exampleEnv exampleLoader) 5 exampleLoader []
     exampleLoader_classesMatch exampleLoader_sorted).1 exampleRun rfl⟩

/-! ## NamespaceList.c: the witness of the append -/

/-- Witness of C10: one registration on the new example list, and the second of two
registered uris found at index 2. -/
theorem newNamespace_pure_append_witness :
    exampleNamespaceList.size = 1 ∧ exampleNamespaceList.data.length = 1 ∧
      (NamespaceList_newNamespace true exampleNamespaceList ["http://opcfoundation.org/UA/"]
        "urn:example:machine").2.2 =
          some { name := "urn:example:machine",
                 idx := (exampleNamespaceList.cb ["http://opcfoundation.org/UA/"]
                   "urn:example:machine").1 } ∧
      NamespaceList_getNamespace
          (registerAll exampleNamespaceList ["http://opcfoundation.org/UA/"]
            ["urn:example:machine", "urn:example:plant"]).1 ((2 : Nat) : Int) =
        .ok (some { name := ["urn:example:machine", "urn:example:plant"].getD (2 - 1) "",
                    idx := (callbackResults exampleAddNamespace
                      ["http://opcfoundation.org/UA/"]
                      ["urn:example:machine", "urn:example:plant"]).getD (2 - 1) 0 }) :=
  ⟨rfl, rfl,
   (newNamespace_pure_append exampleNamespaceList ["http://opcfoundation.org/UA/"]
      "urn:example:machine" 1 rfl rfl).1.2.2.2.2,
   (newNamespace_pure_append exampleNamespaceList ["http://opcfoundation.org/UA/"]
      "urn:example:machine" 1 rfl rfl).2 exampleAddNamespace exampleNamespaceList
      ["urn:example:machine", "urn:example:plant"] 2 (NamespaceList_new_eq _) (by decide)
      (by decide) (by decide)⟩

/-! ## import.c: `isKnownParent` -/

/-- C13: `isKnownParent(id)` is true exactly when `id` is a numeric identifier in
namespace 0 whose value is at most 30, or `id` is the OptionSet type identifier
(namespace 0, `UA_NS0ID_OPTIONSET`); it is false for every string, GUID or
byte-string identifier and for every identifier in a namespace other than 0. -/
theorem isKnownParent_iff (typeId : UA_NodeId) :
    (isKnownParent typeId = true ↔
      (typeId.namespaceIndex = 0 ∧ ∃ n, typeId.identifier = .numeric n ∧ n ≤ 30) ∨
        typeId = UA_NODEID_NUMERIC 0 UA_NS0ID_OPTIONSET) ∧
    (∀ ns s, isKnownParent { namespaceIndex := ns, identifier := .string s } = false) ∧
    (∀ ns g, isKnownParent { namespaceIndex := ns, identifier := .guid g } = false) ∧
    (∀ ns b, isKnownParent { namespaceIndex := ns, identifier := .byteString b } = false) ∧
    (typeId.namespaceIndex ≠ 0 → isKnownParent typeId = false) := by
  refine ⟨?_, ?_, ?_, ?_, ?_⟩
  · obtain ⟨ns, ident⟩ := typeId
    cases ident with
    | numeric n =>
      by_cases hns : ns = 0
      · by_cases hn : n ≤ 30
        · simp [isKnownParent, UA_Identifier.isNumeric, UA_Identifier.numericValue, hns, hn]
        · simp [isKnownParent, UA_Identifier.isNumeric, UA_Identifier.numericValue, hns, hn,
            UA_NodeId_equal, UA_NODEID_NUMERIC]
      · simp [isKnownParent, UA_Identifier.isNumeric, UA_Identifier.numericValue, hns,
          UA_NodeId_equal, UA_NODEID_NUMERIC]
    | string s =>
      simp [isKnownParent, UA_Identifier.isNumeric, UA_NodeId_equal, UA_NODEID_NUMERIC]
    | guid g =>
      simp [isKnownParent, UA_Identifier.isNumeric, UA_NodeId_equal, UA_NODEID_NUMERIC]
    | byteString b =>
      simp [isKnownParent, UA_Identifier.isNumeric, UA_NodeId_equal, UA_NODEID_NUMERIC]
  · intro ns s
    simp [isKnownParent, UA_Identifier.isNumeric, UA_NodeId_equal, UA_NODEID_NUMERIC]
  · intro ns g
    simp [isKnownParent, UA_Identifier.isNumeric, UA_NodeId_equal, UA_NODEID_NUMERIC]
  · intro ns b
    simp [isKnownParent, UA_Identifier.isNumeric, UA_NodeId_equal, UA_NODEID_NUMERIC]
  · intro hns
    obtain ⟨ns, ident⟩ := typeId
    simp only at hns
    simp [isKnownParent, hns, UA_NodeId_equal, UA_NODEID_NUMERIC]

/-- Witness of C13: the OptionSet type in namespace 1 is not a known parent. -/
theorem isKnownParent_iff_witness :
    (1 : Nat) ≠ 0 ∧ isKnownParent (UA_NODEID_NUMERIC 1 UA_NS0ID_OPTIONSET) = false :=
  ⟨by decide, (isKnownParent_iff (UA_NODEID_NUMERIC 1 UA_NS0ID_OPTIONSET)).2.2.2.2 (by decide)⟩

/-! ## import.c: `getParentId` -/

theorem inverseReference_loop_eq (refs : List Reference) :
    getHierachicalInverseReference.loop refs = firstInverse refs := by
  induction refs with
  | nil => rfl
  | cons ref next ih =>
    simp only [getHierachicalInverseReference.loop, firstInverse, List.find?_cons]
    cases ref.isForward
    · simp
    · simpa [firstInverse] using ih

/-- C16: `getParentId` returns the explicit `parentNodeId` of an Object or Variable
node when that is not the null identifier; in every other case (another class,
or a null explicit parent) it returns the target of the first non-forward
reference of the hierarchical reference list, or the null identifier when there
is none. The parent reference type it reports is always the type of that first
non-forward reference (null when there is none). -/
theorem getParentId_spec (env : Env) (node : TNode) :
    (getParentId env node).2 =
        (match firstInverse node.hierachicalRefs with
         | some ref => env.getNodeIdFromChars ref.refType
         | none => UA_NODEID_NULL) ∧
    (∀ o, node.kind = .objectNode o → env.getNodeIdFromChars o.parentNodeId ≠ UA_NODEID_NULL →
      (getParentId env node).1 = env.getNodeIdFromChars o.parentNodeId) ∧
    (∀ v, node.kind = .variableNode v →
      env.getNodeIdFromChars v.parentNodeId ≠ UA_NODEID_NULL →
      (getParentId env node).1 = env.getNodeIdFromChars v.parentNodeId) ∧
    ((∀ o, node.kind = .objectNode o → env.getNodeIdFromChars o.parentNodeId = UA_NODEID_NULL) →
      (∀ v, node.kind = .variableNode v →
        env.getNodeIdFromChars v.parentNodeId = UA_NODEID_NULL) →
      (getParentId env node).1 =
        (match firstInverse node.hierachicalRefs with
         | some ref => env.getNodeIdFromChars ref.target
         | none => UA_NODEID_NULL)) := by
  refine ⟨?_, ?_, ?_, ?_⟩
  · simp only [getParentId, getHierachicalInverseReference, inverseReference_loop_eq,
      getReferenceTypeId]
    cases firstInverse node.hierachicalRefs <;> rfl
  · intro o hk hne
    simp [getParentId, hk, UA_NodeId_equal, hne]
  · intro v hk hne
    simp [getParentId, hk, UA_NodeId_equal, hne]
  · intro ho hv
    have hnull : (match node.kind with
        | .objectNode o => env.getNodeIdFromChars o.parentNodeId
        | .variableNode v => env.getNodeIdFromChars v.parentNodeId
        | _ => UA_NODEID_NULL) = UA_NODEID_NULL := by
      cases hk : node.kind with
      | objectNode o => exact ho o hk
      | variableNode v => exact hv v hk
      | methodNode n => rfl
      | objectTypeNode n => rfl
      | variableTypeNode n => rfl
      | referenceTypeNode n => rfl
      | dataTypeNode n => rfl
      | viewNode n => rfl
    simp only [getParentId, hnull, UA_NodeId_equal, decide_True, if_true,
      getHierachicalInverseReference, inverseReference_loop_eq, getReferenceTarget]
    cases firstInverse node.hierachicalRefs <;> rfl

/-- Witness of C16: the Object with an explicit parent, and a Method whose second
hierarchical reference is the first inverse one. -/
theorem getParentId_spec_witness :
    exampleObject.kind = .objectNode
        { parentNodeId := exampleId 1 "2", eventNotifier := "0",
          refToTypeDef := some { isForward := true, refType := exampleId 0 "40",
                                 target := exampleId 0 "58" } } ∧
      (exampleEnv exampleLoader).getNodeIdFromChars (exampleId 1 "2") ≠ UA_NODEID_NULL ∧
      (getParentId (exampleEnv exampleLoader) exampleObject).1 =
        (exampleEnv exampleLoader).getNodeIdFromChars (exampleId 1 "2") ∧
      getParentId (exampleEnv exampleLoader) exampleMethod =
        (UA_NODEID_NUMERIC 1 1, UA_NODEID_NUMERIC 0 47) :=
  ⟨rfl, by decide,
   (getParentId_spec (exampleEnv exampleLoader) exampleObject).2.1 _ rfl (by decide),
   by decide⟩

/-! ## NamespaceList.c: `NamespaceList_getNamespace` stays inside the entries -/

theorem toSizeT_neg (r : Int) (hneg : r < 0) (hlow : -(2 : Int) ^ 31 ≤ r) :
    toSizeT r = 2 ^ 64 - r.natAbs := by
  unfold toSizeT SIZE_WIDTH
  have h1 : r % (2 : Int) ^ 64 = r + 2 ^ 64 := by
    rw [← Int.add_mul_emod_self (a := r) (b := 1) (c := (2 : Int) ^ 64)]
    rw [one_mul]
    apply Int.emod_eq_of_lt <;> omega
  rw [h1]
  omega

/-- C18: on a list that holds its `size` entries, with `size` at most
`2^64 - 2^31`, `NamespaceList_getNamespace` returns for every `int` index the
entry stored at that index exactly when `0 ≤ relativeIndex < size`, and NULL for
every negative index (the conversion to `size_t` wraps to a value that is at
least `size`) and for every index that is at least `size`; it never reads
outside the stored entries. -/
theorem getNamespace_bounds_safe {σ : Type} (list : NamespaceList σ) (relativeIndex : Int)
    (hdata : list.data.length = list.size) (hsize : list.size ≤ 2 ^ 64 - 2 ^ 31)
    (hlow : -(2 : Int) ^ 31 ≤ relativeIndex) (hhigh : relativeIndex < (2 : Int) ^ 31) :
    (0 ≤ relativeIndex ∧ relativeIndex < list.size →
      ∃ ns, list.data[relativeIndex.toNat]? = some ns ∧
        NamespaceList_getNamespace list relativeIndex = .ok (some ns)) ∧
    (relativeIndex < 0 ∨ (list.size : Int) ≤ relativeIndex →
      NamespaceList_getNamespace list relativeIndex = .ok none) ∧
    NamespaceList_getNamespace list relativeIndex ≠ .error .undefinedBehaviour := by
  have hin : 0 ≤ relativeIndex ∧ relativeIndex < list.size →
      ∃ ns, list.data[relativeIndex.toNat]? = some ns ∧
        NamespaceList_getNamespace list relativeIndex = .ok (some ns) := by
    rintro ⟨h0, h1⟩
    obtain ⟨k, rfl⟩ := Int.eq_ofNat_of_zero_le h0
    have hk : k < list.size := by exact_mod_cast h1
    have hk31 : k < 2 ^ 31 := by exact_mod_cast hhigh
    have hlt : k < list.data.length := by omega
    refine ⟨list.data[k], ?_, ?_⟩
    · simp [List.getElem?_eq_getElem hlt]
    · exact getNamespace_of_lt list k hk31 hk _ (List.getElem?_eq_getElem hlt)
  have hout : relativeIndex < 0 ∨ (list.size : Int) ≤ relativeIndex →
      NamespaceList_getNamespace list relativeIndex = .ok none := by
    rintro (hneg | hge)
    · have hs := toSizeT_neg relativeIndex hneg hlow
      have : toSizeT relativeIndex ≥ list.size := by
        rw [hs]
        have : relativeIndex.natAbs ≤ 2 ^ 31 := by omega
        omega
      simp [NamespaceList_getNamespace, this]
    · have h0 : 0 ≤ relativeIndex := by omega
      obtain ⟨k, rfl⟩ := Int.eq_ofNat_of_zero_le h0
      have hk31 : k < 2 ^ 31 := by exact_mod_cast hhigh
      have hk : list.size ≤ k := by exact_mod_cast hge
      have : toSizeT (k : Int) ≥ list.size := by
        rw [toSizeT_ofNat k hk31]
        exact hk
      simp [NamespaceList_getNamespace, this]
  refine ⟨hin, hout, ?_⟩
  by_cases hc : 0 ≤ relativeIndex ∧ relativeIndex < list.size
  · obtain ⟨ns, _, h⟩ := hin hc
    rw [h]
    simp
  · have : relativeIndex < 0 ∨ (list.size : Int) ≤ relativeIndex := by omega
    rw [hout this]
    simp

/-- Witness of C18: index -1 on the new example list. -/
theorem getNamespace_bounds_safe_witness :
    exampleNamespaceList.data.length = exampleNamespaceList.size ∧
      exampleNamespaceList.size ≤ 2 ^ 64 - 2 ^ 31 ∧
      NamespaceList_getNamespace exampleNamespaceList (-1) = .ok none ∧
      NamespaceList_getNamespace exampleNamespaceList (-1) ≠ .error .undefinedBehaviour :=
  ⟨rfl, by decide,
   (getNamespace_bounds_safe exampleNamespaceList (-1) rfl (by decide) (by decide)
      (by decide)).2.1 (Or.inl (by decide)),
   (getNamespace_bounds_safe exampleNamespaceList (-1) rfl (by decide) (by decide)
      (by decide)).2.2⟩

/-! ## import.c: `getParentType` -/

theorem parentChain_succ (env : Env) (server : History) (n : Nat) (id : UA_NodeId) :
    parentChain env server (n + 1) id =
      getParentDataType env server (parentChain env server n id) := by
  induction n generalizing id with
  | zero => rfl
  | succ n ih =>
    show parentChain env server (n + 1) (getParentDataType env server id) = _
    rw [ih]
    rfl

theorem getParentDataType_of_fails (env : Env) (server : History) (id : UA_NodeId)
    (h : LookupFails env server id) : getParentDataType env server id = UA_NODEID_NULL := by
  unfold LookupFails at h
  simp only [getParentDataType]
  rw [if_pos h]

theorem isKnownParent_null : isKnownParent UA_NODEID_NULL = true := by decide

/-- The walk of `getParentType` needs exactly as many iterations as the chain has
steps to its first known parent. -/
theorem getParentType_of_first_known (env : Env) (server : History) (n : Nat) :
    ∀ (id : UA_NodeId) (fuel : Nat),
      (∀ m, m < n → isKnownParent (parentChain env server m id) = false) →
      isKnownParent (parentChain env server n id) = true →
      getParentType env server fuel id =
        if n ≤ fuel then .ok (parentChain env server n id) else .error .outOfFuel := by
  induction n with
  | zero =>
    intro id fuel _ hk
    simp only [parentChain] at hk
    unfold getParentType
    simp [hk, parentChain]
  | succ n ih =>
    intro id fuel hnot hk
    have h0 : isKnownParent id = false := hnot 0 (Nat.succ_pos n)
    unfold getParentType
    cases fuel with
    | zero => simp [h0]
    | succ fuel =>
      simp only [h0, Bool.false_eq_true, if_false, Nat.add_le_add_iff_right]
      exact ih (getParentDataType env server id) fuel
        (fun m hm => hnot (m + 1) (Nat.succ_lt_succ hm)) hk

/-- What `getParentType` returns is the first known parent of the chain. -/
theorem getParentType_ok_chain (env : Env) (server : History) (fuel : Nat) :
    ∀ (id r : UA_NodeId), getParentType env server fuel id = .ok r →
      ∃ n, n ≤ fuel ∧ r = parentChain env server n id ∧
        isKnownParent (parentChain env server n id) = true ∧
        ∀ m, m < n → isKnownParent (parentChain env server m id) = false := by
  induction fuel with
  | zero =>
    intro id r h
    unfold getParentType at h
    by_cases hk : isKnownParent id = true
    · simp only [hk, if_true] at h
      cases h
      exact ⟨0, Nat.le_refl 0, rfl, hk, fun m hm => absurd hm (Nat.not_lt_zero m)⟩
    · simp [hk] at h
  | succ fuel ih =>
    intro id r h
    unfold getParentType at h
    by_cases hk : isKnownParent id = true
    · simp only [hk, if_true] at h
      cases h
      exact ⟨0, Nat.zero_le _, rfl, hk, fun m hm => absurd hm (Nat.not_lt_zero m)⟩
    · simp only [hk, if_false] at h
      obtain ⟨n, hn, hr, hkn, hnot⟩ := ih _ r h
      refine ⟨n + 1, Nat.succ_le_succ hn, hr, hkn, ?_⟩
      intro m hm
      cases m with
      | zero => simpa [parentChain] using hk
      | succ m => exact hnot m (Nat.lt_of_succ_lt_succ hm)

/-- Without a known parent on the chain every bounded run of the loop is cut off. -/
theorem getParentType_diverges (env : Env) (server : History) (fuel : Nat) :
    ∀ id : UA_NodeId, (∀ n, isKnownParent (parentChain env server n id) = false) →
      getParentType env server fuel id = .error .outOfFuel := by
  induction fuel with
  | zero =>
    intro id h
    have h0 : isKnownParent id = false := h 0
    unfold getParentType
    simp [h0]
  | succ fuel ih =>
    intro id h
    have h0 : isKnownParent id = false := h 0
    unfold getParentType
    simp only [h0, Bool.false_eq_true, if_false]
    exact ih _ (fun n => h (n + 1))

theorem first_known_unique (env : Env) (server : History) (id : UA_NodeId) (n k : Nat)
    (hn : isKnownParent (parentChain env server n id) = true)
    (hnot : ∀ m, m < n → isKnownParent (parentChain env server m id) = false)
    (hk : isKnownParent (parentChain env server k id) = true)
    (hknot : ∀ m, m < k → isKnownParent (parentChain env server m id) = false) : n = k := by
  rcases Nat.lt_trichotomy n k with h | h | h
  · have := hknot n h
    rw [hn] at this
    cases this
  · exact h
  · have := hnot k h
    rw [hk] at this
    cases this

/-- C14: whenever `getParentType` returns, its result is the first identifier on the
chain `id, parent(id), parent(parent(id)), ...` that satisfies `isKnownParent`,
`parent` being `getParentDataType`: the result satisfies `isKnownParent`, an
identifier that is already a known parent is returned unchanged (so
`getParentType` is idempotent), and when a lookup step on the way fails or does
not yield exactly one parent the result is the null identifier. -/
theorem getParentType_result (env : Env) (server : History) (fuel : Nat) (id r : UA_NodeId)
    (h : getParentType env server fuel id = .ok r) :
    (∃ n, n ≤ fuel ∧ r = parentChain env server n id ∧
      ∀ m, m < n → isKnownParent (parentChain env server m id) = false) ∧
    isKnownParent r = true ∧
    (isKnownParent id = true → r = id) ∧
    (∀ (x : UA_NodeId) (fuel' : Nat), isKnownParent x = true →
      getParentType env server fuel' x = .ok x) ∧
    (∀ fuel', getParentType env server fuel' r = .ok r) ∧
    (∀ k, (∀ m, m ≤ k → isKnownParent (parentChain env server m id) = false) →
      LookupFails env server (parentChain env server k id) → r = UA_NODEID_NULL) := by
  obtain ⟨n, hn, hr, hkn, hnot⟩ := getParentType_ok_chain env server fuel id r h
  have hknown : ∀ (x : UA_NodeId) (fuel' : Nat), isKnownParent x = true →
      getParentType env server fuel' x = .ok x := by
    intro x fuel' hx
    unfold getParentType
    simp [hx]
  have hrk : isKnownParent r = true := by rw [hr]; exact hkn
  refine ⟨⟨n, hn, hr, hnot⟩, hrk, ?_, hknown, fun fuel' => hknown r fuel' hrk, ?_⟩
  · intro hid
    have h0 := hknown id fuel hid
    rw [h0] at h
    cases h
    rfl
  · intro k hk hfail
    have hnext : parentChain env server (k + 1) id = UA_NODEID_NULL := by
      rw [parentChain_succ, getParentDataType_of_fails env server _ hfail]
    have hfirst : n = k + 1 := by
      apply first_known_unique env server id n (k + 1) hkn hnot
      · rw [hnext]
        exact isKnownParent_null
      · intro m hm
        exact hk m (Nat.lt_succ_iff.1 hm)
    rw [hr, hfirst, hnext]

/-- Witness of C14: the DataType `ns=1;i=12` below Structure (`ns=0;i=22`). -/
theorem getParentType_result_witness :
    getParentType cyclicBrowseEnv [] 3 (UA_NODEID_NUMERIC 1 12) =
        .ok (UA_NODEID_NUMERIC 0 22) ∧
      (∃ n, n ≤ 3 ∧ UA_NODEID_NUMERIC 0 22 =
          parentChain cyclicBrowseEnv [] n (UA_NODEID_NUMERIC 1 12) ∧
        ∀ m, m < n →
          isKnownParent (parentChain cyclicBrowseEnv [] m (UA_NODEID_NUMERIC 1 12)) = false) ∧
      isKnownParent (UA_NODEID_NUMERIC 0 22) = true :=
  ⟨rfl,
   (getParentType_result cyclicBrowseEnv [] 3 (UA_NODEID_NUMERIC 1 12)
      (UA_NODEID_NUMERIC 0 22) rfl).1,
   (getParentType_result cyclicBrowseEnv [] 3 (UA_NODEID_NUMERIC 1 12)
      (UA_NODEID_NUMERIC 0 22) rfl).2.1⟩

theorem cyclic_chain_unknown (n : Nat) :
    isKnownParent (parentChain cyclicBrowseEnv [] n (UA_NODEID_NUMERIC 1 10)) = false := by
  have h : parentChain cyclicBrowseEnv [] n (UA_NODEID_NUMERIC 1 10) = UA_NODEID_NUMERIC 1 10 ∨
      parentChain cyclicBrowseEnv [] n (UA_NODEID_NUMERIC 1 10) = UA_NODEID_NUMERIC 1 11 := by
    induction n with
    | zero => exact Or.inl rfl
    | succ n ih =>
      rw [parentChain_succ]
      rcases ih with h | h
      · right
        rw [h]
        decide
      · left
        rw [h]
        decide
  rcases h with h | h <;> (rw [h]; decide)

/-- C15: `getParentType` terminates for every start identifier whose parent chain
reaches, after finitely many `getParentDataType` steps, an identifier that
satisfies `isKnownParent` (a failed lookup yields the null identifier, a known
parent); the number of loop iterations is the number of steps to the first such
identifier: with that much fuel or more the result is returned, with less the
loop is still running. When the chain never reaches a known parent, the loop
does not terminate: every bounded run is cut off. -/
theorem getParentType_terminates (env : Env) (server : History) (id : UA_NodeId) :
    (∀ n, (∀ m, m < n → isKnownParent (parentChain env server m id) = false) →
      isKnownParent (parentChain env server n id) = true →
      ∀ fuel, getParentType env server fuel id =
        if n ≤ fuel then .ok (parentChain env server n id) else .error .outOfFuel) ∧
    ((∃ k, isKnownParent (parentChain env server k id) = true) →
      ∃ n r, getParentType env server n id = .ok r ∧
        (∀ fuel, n ≤ fuel → getParentType env server fuel id = .ok r) ∧
        ∀ fuel, fuel < n → getParentType env server fuel id = .error .outOfFuel) ∧
    (∀ k, (∀ m, m < k → isKnownParent (parentChain env server m id) = false) →
      LookupFails env server (parentChain env server k id) →
      ∃ n, n ≤ k + 1 ∧ ∃ r, getParentType env server n id = .ok r) ∧
    ((∀ n, isKnownParent (parentChain env server n id) = false) →
      ∀ fuel, getParentType env server fuel id = .error .outOfFuel) := by
  have hfirst := fun n h1 h2 fuel => getParentType_of_first_known env server n id fuel h1 h2
  have hfin : (∃ k, isKnownParent (parentChain env server k id) = true) →
      ∃ n r, getParentType env server n id = .ok r ∧
        (∀ fuel, n ≤ fuel → getParentType env server fuel id = .ok r) ∧
        ∀ fuel, fuel < n → getParentType env server fuel id = .error .outOfFuel := by
    intro hex
    have hmin : ∀ m, m < Nat.find hex →
        isKnownParent (parentChain env server m id) = false := by
      intro m hm
      have := Nat.find_min hex hm
      simpa using this
    have hspec := Nat.find_spec hex
    refine ⟨Nat.find hex, parentChain env server (Nat.find hex) id, ?_, ?_, ?_⟩
    · rw [hfirst _ hmin hspec]
      simp
    · intro fuel hle
      rw [hfirst _ hmin hspec]
      simp [hle]
    · intro fuel hlt
      rw [hfirst _ hmin hspec]
      simp [Nat.not_le.2 hlt]
  refine ⟨hfirst, hfin, ?_, ?_⟩
  · intro k hk hfail
    have hnext : isKnownParent (parentChain env server (k + 1) id) = true := by
      rw [parentChain_succ, getParentDataType_of_fails env server _ hfail]
      exact isKnownParent_null
    by_cases hkk : isKnownParent (parentChain env server k id) = true
    · refine ⟨k, Nat.le_succ k, parentChain env server k id, ?_⟩
      rw [hfirst k hk hkk]
      simp
    · have hk1 : ∀ m, m < k + 1 → isKnownParent (parentChain env server m id) = false := by
        intro m hm
        rcases Nat.lt_succ_iff_lt_or_eq.1 hm with h | h
        · exact hk m h
        · rw [h]
          simpa using hkk
      refine ⟨k + 1, Nat.le_refl _, parentChain env server (k + 1) id, ?_⟩
      rw [hfirst (k + 1) hk1 hnext]
      simp
  · intro h fuel
    exact getParentType_diverges env server fuel id h

/-- Witness of C15: the chain of `ns=1;i=12` has one step, and the two DataTypes
that are each other's parent keep the loop running. -/
theorem getParentType_terminates_witness :
    isKnownParent (parentChain cyclicBrowseEnv [] 1 (UA_NODEID_NUMERIC 1 12)) = true ∧
      (∀ fuel, getParentType cyclicBrowseEnv [] fuel (UA_NODEID_NUMERIC 1 12) =
        if 1 ≤ fuel then .ok (parentChain cyclicBrowseEnv [] 1 (UA_NODEID_NUMERIC 1 12))
        else .error .outOfFuel) ∧
      (∀ n, isKnownParent (parentChain cyclicBrowseEnv [] n (UA_NODEID_NUMERIC 1 10)) = false) ∧
      ∀ fuel, getParentType cyclicBrowseEnv [] fuel (UA_NODEID_NUMERIC 1 10) =
        .error .outOfFuel :=
  ⟨by decide,
   (getParentType_terminates cyclicBrowseEnv [] (UA_NODEID_NUMERIC 1 12)).1 1
      (by intro m hm; obtain rfl : m = 0 := by omega
          decide) (by decide),
   cyclic_chain_unknown,
   (getParentType_terminates cyclicBrowseEnv [] (UA_NODEID_NUMERIC 1 10)).2.2.2
      cyclic_chain_unknown⟩

/-! ## NamespaceList.c: the callback is invoked at every registration -/

theorem registerAll_invocations {σ : Type} (cb : σ → String → Int × σ) (uris : List String)
    (list : NamespaceList (σ × List String)) (hcb : list.cb = recordInvocations cb)
    (ctx : σ) (log : List String) :
    (registerAll list (ctx, log) uris).2.2 = log ++ uris := by
  induction uris generalizing list ctx log with
  | nil => simp [registerAll]
  | cons uri uris ih =>
    simp only [registerAll]
    have hcb' : (NamespaceList_newNamespace true list (ctx, log) uri).1.cb =
        recordInvocations cb := by
      rw [newNamespace_cb, hcb]
    have hctx : (NamespaceList_newNamespace true list (ctx, log) uri).2.1 =
        ((cb ctx uri).2, log ++ [uri]) := by
      rw [newNamespace_ctx, hcb]
      rfl
    rw [hctx, ih _ hcb']
    simp

/-- C11, as stated, fails: the uri `urn:example:machine` is registered twice on a
new list; the callback is invoked both times, and the list holds two entries for
that uri. -/
theorem callback_invoked_again_for_known_uri :
    (registerAll recordingNamespaceList (["http://opcfoundation.org/UA/"], [])
        ["urn:example:machine", "urn:example:machine"]).2.2 =
        ["urn:example:machine", "urn:example:machine"] ∧
      (registerAll recordingNamespaceList (["http://opcfoundation.org/UA/"], [])
        ["urn:example:machine", "urn:example:machine"]).1.size = 3 ∧
      (registerAll recordingNamespaceList (["http://opcfoundation.org/UA/"], [])
        ["urn:example:machine", "urn:example:machine"]).1.data =
        [{ name := "http://opcfoundation.org/UA/", idx := 0 },
         { name := "urn:example:machine", idx := 1 },
         { name := "urn:example:machine", idx := 1 }] := by
  refine ⟨?_, ?_, ?_⟩ <;> decide

/-- C11, amended: over every sequence of `NamespaceList_newNamespace` calls the
callback is invoked once per call, in call order, also for a uri that was
registered before; every call appends one entry, which holds the uri and the
index the callback returned at that call. -/
theorem callback_invoked_at_every_call {σ : Type} (cb : σ → String → Int × σ)
    (list : NamespaceList (σ × List String)) (ctx : σ) (log uris : List String)
    (hcb : list.cb = recordInvocations cb) (hdata : list.data.length = list.size) :
    (registerAll list (ctx, log) uris).2.2 = log ++ uris ∧
      (registerAll list (ctx, log) uris).1.size = list.size + uris.length ∧
      (registerAll list (ctx, log) uris).1.data =
        list.data ++ List.zipWith (fun i u => ({ name := u, idx := i } : Namespace))
          (callbackResults list.cb (ctx, log) uris) uris := by
  obtain ⟨h1, h2⟩ := registerAll_spec uris list (ctx, log) hdata
  exact ⟨registerAll_invocations cb uris list hcb ctx log, h1, h2⟩

/-- Witness of C11 as amended: two different uris and one repeated. -/
theorem callback_invoked_at_every_call_witness :
    recordingNamespaceList.cb = recordInvocations exampleAddNamespace ∧
      recordingNamespaceList.data.length = recordingNamespaceList.size ∧
      (registerAll recordingNamespaceList (["http://opcfoundation.org/UA/"], [])
        ["urn:a", "urn:b", "urn:a"]).2.2 = [] ++ ["urn:a", "urn:b", "urn:a"] ∧
      (registerAll recordingNamespaceList (["http://opcfoundation.org/UA/"], [])
        ["urn:a", "urn:b", "urn:a"]).1.size = recordingNamespaceList.size + 3 :=
  ⟨rfl, rfl,
   (callback_invoked_at_every_call exampleAddNamespace recordingNamespaceList
      ["http://opcfoundation.org/UA/"] [] ["urn:a", "urn:b", "urn:a"] rfl rfl).1,
   (callback_invoked_at_every_call exampleAddNamespace recordingNamespaceList
      ["http://opcfoundation.org/UA/"] [] ["urn:a", "urn:b", "urn:a"] rfl rfl).2.1⟩

/-! ## import.c: the descriptor `handleVariableNode` decodes with -/

theorem value_ok_decoded (env : Env) (fuel : Nat) (node : TVariableNode) (server : History)
    (attr : UA_VariableAttributes) (value : Value) (dataType : Option UA_DataType)
    (hval : node.value = some value)
    (hdt : handleVariableNode.dataType env fuel server attr.dataType = .ok dataType) :
    handleVariableNode.value env fuel node server attr =
      .ok (decodedWith env server attr value dataType) :=
  value_ok env fuel node server attr value dataType hval hdt

/-- The call `handleVariableNode` makes for a Variable with the attributes `attr`. -/
theorem handleVariableNode_of_dataType (env : Env) (fuel : Nat) (node : TVariableNode)
    (extension : Option String) (id parentId parentReferenceId : UA_NodeId)
    (lt : UA_LocalizedText) (qn : UA_QualifiedName) (description : UA_LocalizedText)
    (server : History) (attr : UA_VariableAttributes) (value : Value) (ref : Reference)
    (dataType : Option UA_DataType)
    (ha : handleVariableNode.attributes env node lt description = .ok attr)
    (hval : node.value = some value) (href : node.refToTypeDef = some ref)
    (hdt : handleVariableNode.dataType env fuel server attr.dataType = .ok dataType) :
    handleVariableNode env fuel node extension id parentId parentReferenceId lt qn
        description server =
      .ok (server ++ [.addNode .UA_Server_addNode_begin NODECLASS_VARIABLE id parentId
        parentReferenceId qn (some (env.getNodeIdFromChars ref.target))
        (.variable (decodedWith env server attr value dataType)) extension]) :=
  handleVariableNode_ok env fuel node extension id parentId parentReferenceId lt qn
    description server attr _ ref ha
    (value_ok_decoded env fuel node server attr value dataType hval hdt) href

/-- C12: to decode the literal value of a Variable node `handleVariableNode` takes
the built-in descriptor of the node's declared data type if there is one;
otherwise the custom descriptor registered for the declared data type;
otherwise the built-in descriptor of the known base type that `getParentType`
finds for it (and it does not return when that walk does not). The value is
decoded by `Value_getData` with the descriptor chosen, which is also the type of
the value in the call to the server. So a declared type without a built-in
descriptor and with a custom one (a union) is decoded with the custom
descriptor, and the base type's built-in layout is used only when no custom
descriptor is registered. -/
theorem handleVariableNode_descriptor_order (env : Env) (fuel : Nat) (node : TVariableNode)
    (extension : Option String) (id parentId parentReferenceId : UA_NodeId)
    (lt : UA_LocalizedText) (qn : UA_QualifiedName) (description : UA_LocalizedText)
    (server : History) (dims : Nat × Option (List Nat)) (value : Value) (ref : Reference)
    (hdims : getArrayDimensions node.arrayDimensions none = .ok dims)
    (hval : node.value = some value) (href : node.refToTypeDef = some ref) :
    ∃ attr : UA_VariableAttributes,
      handleVariableNode.attributes env node lt description = .ok attr ∧
      attr.dataType = env.getNodeIdFromChars node.datatype ∧
      attr.value = UA_Variant.empty ∧
      (∀ d, env.UA_findDataType (env.getNodeIdFromChars node.datatype) = some d →
        handleVariableNode env fuel node extension id parentId parentReferenceId lt qn
            description server =
          .ok (server ++ [.addNode .UA_Server_addNode_begin NODECLASS_VARIABLE id parentId
            parentReferenceId qn (some (env.getNodeIdFromChars ref.target))
            (.variable (decodedWith env server attr value (some d))) extension])) ∧
      (∀ d, env.UA_findDataType (env.getNodeIdFromChars node.datatype) = none →
        env.NodesetLoader_getCustomDataType server (env.getNodeIdFromChars node.datatype) =
          some d →
        handleVariableNode env fuel node extension id parentId parentReferenceId lt qn
            description server =
          .ok (server ++ [.addNode .UA_Server_addNode_begin NODECLASS_VARIABLE id parentId
            parentReferenceId qn (some (env.getNodeIdFromChars ref.target))
            (.variable (decodedWith env server attr value (some d))) extension])) ∧
      (∀ parent, env.UA_findDataType (env.getNodeIdFromChars node.datatype) = none →
        env.NodesetLoader_getCustomDataType server (env.getNodeIdFromChars node.datatype) =
          none →
        getParentType env server fuel (env.getNodeIdFromChars node.datatype) = .ok parent →
        handleVariableNode env fuel node extension id parentId parentReferenceId lt qn
            description server =
          .ok (server ++ [.addNode .UA_Server_addNode_begin NODECLASS_VARIABLE id parentId
            parentReferenceId qn (some (env.getNodeIdFromChars ref.target))
            (.variable (decodedWith env server attr value (env.UA_findDataType parent)))
            extension])) ∧
      (∀ e, env.UA_findDataType (env.getNodeIdFromChars node.datatype) = none →
        env.NodesetLoader_getCustomDataType server (env.getNodeIdFromChars node.datatype) =
          none →
        getParentType env server fuel (env.getNodeIdFromChars node.datatype) = .error e →
        handleVariableNode env fuel node extension id parentId parentReferenceId lt qn
            description server = .error e) ∧
      (∀ (dataType : Option UA_DataType) (data : RawData),
        env.Value_getData value dataType (env.customDataTypes server) = some data →
        (decodedWith env server attr value dataType).value =
          (if value.isArray then UA_Variant_setArray data.mem value.membersSize dataType
           else UA_Variant_setScalar data.mem dataType) ∧
        (decodedWith env server attr value dataType).value.type = dataType) ∧
      (∀ dataType : Option UA_DataType,
        env.Value_getData value dataType (env.customDataTypes server) = none →
        (decodedWith env server attr value dataType).value = UA_Variant.empty) := by
  have hattr : ∃ attr, handleVariableNode.attributes env node lt description = .ok attr ∧
      attr.dataType = env.getNodeIdFromChars node.datatype ∧
      attr.value = UA_Variant.empty := by
    simp only [handleVariableNode.attributes, hdims, hval]
    refine ⟨_, rfl, ?_, ?_⟩ <;> (split <;> split <;> rfl)
  obtain ⟨attr, ha, hd, hempty⟩ := hattr
  refine ⟨attr, ha, hd, hempty, ?_, ?_, ?_, ?_, ?_, ?_⟩
  · intro d hb
    apply handleVariableNode_of_dataType env fuel node extension id parentId
      parentReferenceId lt qn description server attr value ref _ ha hval href
    simp [handleVariableNode.dataType, hd, hb]
  · intro d hb hc
    apply handleVariableNode_of_dataType env fuel node extension id parentId
      parentReferenceId lt qn description server attr value ref _ ha hval href
    simp [handleVariableNode.dataType, hd, hb, hc]
  · intro parent hb hc hp
    apply handleVariableNode_of_dataType env fuel node extension id parentId
      parentReferenceId lt qn description server attr value ref _ ha hval href
    simp [handleVariableNode.dataType, hd, hb, hc, hp]
  · intro e hb hc hp
    have hdt : handleVariableNode.dataType env fuel server attr.dataType = .error e := by
      simp [handleVariableNode.dataType, hd, hb, hc, hp]
    simp [handleVariableNode, ha, handleVariableNode.value, hval, hdt]
  · intro dataType data hdata
    simp only [decodedWith, hdata]
    cases value.isArray <;> simp [UA_Variant_setArray, UA_Variant_setScalar]
  · intro dataType hnone
    simp only [decodedWith, hnone]
    exact hempty

/-- Witness of C12: the Variable whose declared type is the union `ns=1;i=3002` is
decoded with the custom descriptor, not with the layout of its base type
Structure. -/
theorem handleVariableNode_descriptor_order_witness :
    getArrayDimensions exampleUnionVariable.arrayDimensions none = .ok (0, none) ∧
      exampleUnionVariable.value = some exampleScalarValue ∧
      unionEnv.getNodeIdFromChars exampleUnionVariable.datatype = UA_NODEID_NUMERIC 1 3002 ∧
      unionEnv.UA_findDataType (UA_NODEID_NUMERIC 1 3002) = none ∧
      unionEnv.NodesetLoader_getCustomDataType [] (UA_NODEID_NUMERIC 1 3002) =
        some exampleUnion ∧
      getParentType unionEnv [] 5 (UA_NODEID_NUMERIC 1 3002) = .ok (UA_NODEID_NUMERIC 0 22) ∧
      handleVariableNode unionEnv 5 exampleUnionVariable none (UA_NODEID_NUMERIC 1 6018)
          (UA_NODEID_NUMERIC 0 85) (UA_NODEID_NUMERIC 0 35) (UA_LOCALIZEDTEXT "" "v")
          (UA_QUALIFIEDNAME 1 "v") (UA_LOCALIZEDTEXT "" "") [] =
        .ok [.addNode .UA_Server_addNode_begin NODECLASS_VARIABLE
          (UA_NODEID_NUMERIC 1 6018) (UA_NODEID_NUMERIC 0 85) (UA_NODEID_NUMERIC 0 35)
          (UA_QUALIFIEDNAME 1 "v") (some (UA_NODEID_NUMERIC 0 63))
          (.variable
            { exampleUnionAttributes with
              value := UA_Variant_setScalar [1] (some exampleUnion) })
          none] ∧
      ∃ attr : UA_VariableAttributes,
        handleVariableNode.attributes unionEnv exampleUnionVariable (UA_LOCALIZEDTEXT "" "v")
          (UA_LOCALIZEDTEXT "" "") = .ok attr ∧
        attr.dataType = unionEnv.getNodeIdFromChars exampleUnionVariable.datatype ∧
        handleVariableNode unionEnv 5 exampleUnionVariable none (UA_NODEID_NUMERIC 1 6018)
            (UA_NODEID_NUMERIC 0 85) (UA_NODEID_NUMERIC 0 35) (UA_LOCALIZEDTEXT "" "v")
            (UA_QUALIFIEDNAME 1 "v") (UA_LOCALIZEDTEXT "" "") [] =
          .ok ([] ++ [.addNode .UA_Server_addNode_begin NODECLASS_VARIABLE
            (UA_NODEID_NUMERIC 1 6018) (UA_NODEID_NUMERIC 0 85) (UA_NODEID_NUMERIC 0 35)
            (UA_QUALIFIEDNAME 1 "v")
            (some (unionEnv.getNodeIdFromChars (exampleId 0 "63")))
            (.variable (decodedWith unionEnv [] attr exampleScalarValue (some exampleUnion)))
            none]) :=
  ⟨rfl, rfl, rfl, rfl, rfl, rfl, rfl,
   (handleVariableNode_descriptor_order unionEnv 5 exampleUnionVariable none
      (UA_NODEID_NUMERIC 1 6018) (UA_NODEID_NUMERIC 0 85) (UA_NODEID_NUMERIC 0 35)
      (UA_LOCALIZEDTEXT "" "v") (UA_QUALIFIEDNAME 1 "v") (UA_LOCALIZEDTEXT "" "") []
      (0, none) exampleScalarValue
      { isForward := true, refType := exampleId 0 "40", target := exampleId 0 "63" }
      rfl rfl rfl).elim
     (fun attr h => ⟨attr, h.1, h.2.1, h.2.2.2.2.1 exampleUnion rfl rfl⟩)⟩

/-! ## import.c: `getArrayDimensions` -/

/-- Every dimension string with a `;` sends `getArrayDimensions` out of defined
behaviour, whatever `*dims` was. -/
theorem getArrayDimensions_undefined_of_separator (s : String) (dims : Option (List Nat))
    (rest : List Char) (h : strchr s.toList (Char.ofNat 59) = some rest) :
    getArrayDimensions s dims = .error .undefinedBehaviour := by
  have hne : ¬ (0 = s.length) := by
    intro h0
    have hnil : s.toList = [] := by
      have : s.toList.length = 0 := h0.symm
      exact List.length_eq_zero.1 this
    rw [hnil] at h
    simp [strchr] at h
  simp only [getArrayDimensions, hne, if_false, h]

/-- C17 holds for the empty string and for one component, and fails from the second
component on: for "2;3" the store `*dims[arrSize - 1]`, which is
`*(dims[1])`, leaves defined behaviour, where the claim has the result 2 with
the dimensions 2 and 3. A Variable with that dimension string gets no
attributes. -/
theorem getArrayDimensions_second_component :
    getArrayDimensions "" none = .ok (0, none) ∧
      getArrayDimensions "" (some [7]) = .ok (0, some [7]) ∧
      getArrayDimensions "5" none = .ok (1, some [5]) ∧
      getArrayDimensions "2;3" none = .error .undefinedBehaviour ∧
      getArrayDimensions "2;3" none ≠ .ok (2, some [2, 3]) ∧
      handleVariableNode.attributes (exampleEnv exampleLoader)
          { exampleValueVariableNode "2" exampleArrayValue with arrayDimensions := "2;3" }
          (UA_LOCALIZEDTEXT "" "v") (UA_LOCALIZEDTEXT "" "") =
        .error .undefinedBehaviour := by
  refine ⟨rfl, rfl, rfl, rfl, ?_, rfl⟩
  intro h
  have h2 : getArrayDimensions "2;3" none = .error .undefinedBehaviour := rfl
  rw [h2] at h
  cases h

end NodesetLoader
